import Mathlib

/-!
Shallow embedding of the metric-computation core of the `av-metrics`
repository, together with theorems settling the spec claims C1-C10.

Conventions of the embedding:
* pixel samples are modelled as integers (`ℤ`); the source is generic over
  `u8`/`u16` samples and immediately casts them to `i32`/`u16` wide types,
  so no wraparound is observable in the embedded code paths;
* `f64`/`f32` arithmetic is idealised as real arithmetic (`ℝ`);
* `usize` subtraction that may underflow (a Rust panic) and slice indexing
  that may go out of bounds are modelled with `Option`, `none` meaning a
  panic;
* fallible functions returning `Result<_, MetricsError>` are modelled with
  `Except MetricsError _`.
-/

namespace AvMetrics

/-- Chroma sampling of a video, from `src/src/video/mod.rs`. -/
inductive ChromaSampling where
  | Cs420
  | Cs422
  | Cs444
  | Cs400
deriving DecidableEq, Repr

/-- Chroma sample position, from `src/av_metrics/src/video/mod.rs`. -/
inductive ChromaSamplePosition where
  | Unknown
  | Vertical
  | Colocated
  | Bilateral
  | Interpolated
deriving DecidableEq, Repr

/-- Error type of the crate, from `src/av_metrics/src/lib.rs`
(`MetricsError`).  Reasons are carried verbatim. -/
inductive MetricsError where
  | MalformedInput (reason : String)
  | UnsupportedInput (reason : String)
  | InputMismatch (reason : String)
  | VideoError (reason : String)
  | SendError (reason : String)
  | ProcessError (reason : String)
deriving DecidableEq, Repr

/-- One plane of planar video data, from `src/src/video/mod.rs`
(`PlaneData<T>`); the row-major sample buffer is a list of samples. -/
structure PlaneData where
  width : ℕ
  height : ℕ
  data : List ℤ
deriving DecidableEq, Repr

/-- A video frame, from `src/src/video/mod.rs` (`FrameInfo<T>`):
planes 0/1/2 are Y/U/V. -/
structure FrameInfo where
  planes : Fin 3 → PlaneData
  bit_depth : ℕ
  chroma_sampling : ChromaSampling

/-- `PlaneData::can_compare` from `src/src/video/mod.rs`. -/
def PlaneData.can_compare (p1 p2 : PlaneData) : Except MetricsError Unit :=
  if p1.width ≠ p2.width ∨ p1.height ≠ p2.height then
    .error (.InputMismatch "Video resolution does not match")
  else
    .ok ()

/-- `FrameInfo::can_compare` from `src/src/video/mod.rs`. -/
def FrameInfo.can_compare (f1 f2 : FrameInfo) : Except MetricsError Unit :=
  if f1.bit_depth ≠ f2.bit_depth then
    .error (.InputMismatch "Bit depths do not match")
  else if f1.bit_depth > 16 then
    .error (.UnsupportedInput "Bit depths above 16 are not supported")
  else if f1.chroma_sampling ≠ f2.chroma_sampling then
    .error (.InputMismatch "Chroma subsampling offsets do not match")
  else do
    (f1.planes 0).can_compare (f2.planes 0)
    (f1.planes 1).can_compare (f2.planes 1)
    (f1.planes 2).can_compare (f2.planes 2)

/-- `ChromaSampling::get_decimation` from `src/src/video/mod.rs`. -/
def ChromaSampling.get_decimation : ChromaSampling → Option (ℕ × ℕ)
  | .Cs420 => some (1, 1)
  | .Cs422 => some (1, 0)
  | .Cs444 => some (0, 0)
  | .Cs400 => none

/-- `ChromaSampling::get_chroma_weight` from `src/src/video/mod.rs`
(also `src/av_metrics/src/video/mod.rs` lines 53-63). -/
def ChromaSampling.get_chroma_weight : ChromaSampling → ℝ
  | .Cs420 => 0.25
  | .Cs422 => 0.5
  | .Cs444 => 1.0
  | .Cs400 => 0.0

/-- Planar metric output record, from `src/av_metrics/src/video/mod.rs`
(`PlanarMetrics`). -/
structure PlanarMetrics where
  y : ℝ
  u : ℝ
  v : ℝ
  avg : ℝ

/-! ## PSNR (`src/av_metrics/src/video/psnr.rs`) -/

/-- `std::f64::EPSILON`, the machine epsilon of `f64`. -/
noncomputable def f64Epsilon : ℝ := 1 / 2 ^ 52

/-- `PsnrMetrics` from `src/av_metrics/src/video/psnr.rs`.  `sq_err` is an
`f64` in the source, though it always holds an exact cast of a `u64`. -/
structure PsnrMetrics where
  sq_err : ℝ
  n_pixels : ℕ
  sample_max : ℕ

/-- The `u64` accumulator of `calculate_plane_total_squared_error`:
`Σ |a - b| * |a - b|` with the difference taken in `i32` and its absolute
value promoted to `u64` before squaring. -/
def squaredErrorSumNat (d1 d2 : List ℤ) : ℕ :=
  (List.zipWith (fun a b => (a - b).natAbs * (a - b).natAbs) d1 d2).sum

/-- `calculate_plane_total_squared_error` from
`src/av_metrics/src/video/psnr.rs` lines 162-170: the `u64` sum cast to
`f64`. -/
noncomputable def calculate_plane_total_squared_error (p1 p2 : PlaneData) : ℝ :=
  (squaredErrorSumNat p1.data p2.data : ℝ)

/-- `calculate_plane_psnr_metrics` from `src/av_metrics/src/video/psnr.rs`. -/
noncomputable def calculate_plane_psnr_metrics (p1 p2 : PlaneData) (bit_depth : ℕ) :
    PsnrMetrics where
  sq_err := calculate_plane_total_squared_error p1 p2
  n_pixels := p1.width * p1.height
  sample_max := 2 ^ bit_depth - 1

/-- `calculate_psnr` from `src/av_metrics/src/video/psnr.rs` lines 152-158. -/
noncomputable def calculate_psnr (metrics : PsnrMetrics) : ℝ :=
  if metrics.sq_err ≤ f64Epsilon then 100
  else
    10 * (Real.logb 10 ((metrics.sample_max ^ 2 : ℕ) : ℝ)
      + Real.logb 10 (metrics.n_pixels : ℝ) - Real.logb 10 metrics.sq_err)

/-- The fold closure of `calculate_summed_psnr`: SSE and pixel counts are
added, `sample_max` is taken from the current plane. -/
def psnrSumStep (acc plane : PsnrMetrics) : PsnrMetrics where
  sq_err := acc.sq_err + plane.sq_err
  sample_max := plane.sample_max
  n_pixels := acc.n_pixels + plane.n_pixels

/-- `calculate_summed_psnr` from `src/av_metrics/src/video/psnr.rs`
lines 124-134: fold the metrics together, then apply `calculate_psnr`. -/
noncomputable def calculate_summed_psnr (metrics : List PsnrMetrics) : ℝ :=
  calculate_psnr <|
    metrics.foldl psnrSumStep { sq_err := 0, n_pixels := 0, sample_max := 0 }

/-- The `[PsnrMetrics; 3]` per-frame result of `Psnr::process_frame`. -/
structure Psnr3 where
  y : PsnrMetrics
  u : PsnrMetrics
  v : PsnrMetrics

/-- `Psnr::process_frame` from `src/av_metrics/src/video/psnr.rs`. -/
noncomputable def psnrProcessFrame (frame1 frame2 : FrameInfo) :
    Except MetricsError Psnr3 := do
  frame1.can_compare frame2
  let bit_depth := frame1.bit_depth
  pure
    { y := calculate_plane_psnr_metrics (frame1.planes 0) (frame2.planes 0) bit_depth
      u := calculate_plane_psnr_metrics (frame1.planes 1) (frame2.planes 1) bit_depth
      v := calculate_plane_psnr_metrics (frame1.planes 2) (frame2.planes 2) bit_depth }

/-- `calculate_frame_psnr` from `src/av_metrics/src/video/psnr.rs`
lines 53-64. -/
noncomputable def calculate_frame_psnr (frame1 frame2 : FrameInfo) :
    Except MetricsError PlanarMetrics := do
  let metrics ← psnrProcessFrame frame1 frame2
  pure
    { y := calculate_psnr metrics.y
      u := calculate_psnr metrics.u
      v := calculate_psnr metrics.v
      avg := calculate_summed_psnr [metrics.y, metrics.u, metrics.v] }

/-- `PsnrResults` from `src/av_metrics/src/video/psnr.rs`. -/
structure PsnrResults where
  psnr : PlanarMetrics
  apsnr : PlanarMetrics

/-- `Psnr::aggregate_frame_results` from `src/av_metrics/src/video/psnr.rs`
lines 93-114.  `metrics.iter().flatten()` on a `Vec<[PsnrMetrics; 3]>`
yields the planes of each frame in order, which is `List.bind` below. -/
noncomputable def psnrAggregateFrameResults (metrics : List Psnr3) : PsnrResults where
  psnr :=
    { y := calculate_summed_psnr (metrics.map (·.y))
      u := calculate_summed_psnr (metrics.map (·.u))
      v := calculate_summed_psnr (metrics.map (·.v))
      avg := calculate_summed_psnr (metrics.flatMap fun m => [m.y, m.u, m.v]) }
  apsnr :=
    { y := (metrics.map fun m => calculate_psnr m.y).sum / metrics.length
      u := (metrics.map fun m => calculate_psnr m.u).sum / metrics.length
      v := (metrics.map fun m => calculate_psnr m.v).sum / metrics.length
      avg := (metrics.map fun m => calculate_summed_psnr [m.y, m.u, m.v]).sum
        / metrics.length }

/-- A concrete frame used in the C1 witness. -/
def c1Frame : FrameInfo where
  planes := ![⟨1, 1, [7]⟩, ⟨1, 1, [2]⟩, ⟨1, 1, [9]⟩]
  bit_depth := 8
  chroma_sampling := .Cs420

/-- A concrete monochrome frame. -/
def monoFrame : FrameInfo where
  planes := ![⟨1, 1, [0]⟩, ⟨0, 0, []⟩, ⟨0, 0, []⟩]
  bit_depth := 8
  chroma_sampling := .Cs400

/-- A second concrete monochrome frame with different luma. -/
def monoFrame2 : FrameInfo where
  planes := ![⟨1, 1, [3]⟩, ⟨0, 0, []⟩, ⟨0, 0, []⟩]
  bit_depth := 8
  chroma_sampling := .Cs400

/-! ## The per-video driver (`src/av_metrics/src/video/mod.rs`, C9) -/

/-- Model of a `Decoder` as seen by `VideoMetric::process_video`: the
reported details (`get_bit_depth`, `get_video_details().chroma_sampling`)
plus the stream of frames `read_video_frame` would yield. -/
structure DecoderModel (α : Type) where
  bit_depth : ℕ
  chroma_sampling : ChromaSampling
  frames : List α

/-- `VideoMetric::process_video` from `src/av_metrics/src/video/mod.rs`
lines 113-138, composed with a sequentialised `process_video_mt`:
the bit-depth and chroma-sampling checks run first; only then are frame
pairs read and processed.  The concurrent worker pool is modelled as an
in-order `mapM` (all aggregators in the crate are order-independent), a
per-frame failure surfaces as `ProcessError` with the inner reason (the
`Debug`-formatted frame dump of the source message is not modelled), and
zero processed frames surface as `UnsupportedInput`. -/
def processVideoModel {α β γ : Type}
    (process_frame : α → α → Except MetricsError β)
    (aggregate : List β → Except MetricsError γ)
    (d1 d2 : DecoderModel α) (frame_limit : Option ℕ) :
    Except MetricsError γ :=
  if d1.bit_depth ≠ d2.bit_depth then
    .error (.InputMismatch "Bit depths do not match")
  else if d1.chroma_sampling ≠ d2.chroma_sampling then
    .error (.InputMismatch "Chroma samplings do not match")
  else
    let pairs :=
      match frame_limit with
      | some limit => (List.zip d1.frames d2.frames).take limit
      | none => List.zip d1.frames d2.frames
    match pairs.mapM fun p => process_frame p.1 p.2 with
    | .error e => .error (.ProcessError (toString (repr e)))
    | .ok out =>
      if out.isEmpty then
        .error (.UnsupportedInput "No readable frames found in one or more input files")
      else
        aggregate out

/-! ## CIEDE2000 SIMD/scalar dispatch (`src/av_metrics/src/video/ciede/mod.rs`, C8) -/

/-- The functions `get_delta_e_row_fn` can return: an AVX2 row function or
a scalar row function, each tied to a `Colorspace` (bit depth and
x-decimation). -/
inductive DeltaERowFnSel where
  | avx2 (bit_depth : ℕ)
  | scalar (bit_depth : ℕ) (xdec : ℕ)
deriving DecidableEq, Repr

/-- `get_delta_e_row_fn` from `src/av_metrics/src/video/ciede/mod.rs`
lines 156-177.  `avx2_detected` models `is_x86_feature_detected!("avx2")`;
`none` models the `unreachable!()` panic branches.  The Rust `match` on
integer literals is rendered as the equivalent if-chain. -/
def get_delta_e_row_fn (bit_depth xdec : ℕ) (simd avx2_detected : Bool) :
    Option DeltaERowFnSel :=
  if avx2_detected = true ∧ xdec = 1 ∧ simd = true then
    if bit_depth = 8 then some (.avx2 8)
    else if bit_depth = 10 then some (.avx2 10)
    else if bit_depth = 12 then some (.avx2 12)
    else none
  else
    if bit_depth = 8 ∧ xdec = 1 then some (.scalar 8 1)
    else if bit_depth = 10 ∧ xdec = 1 then some (.scalar 10 1)
    else if bit_depth = 12 ∧ xdec = 1 then some (.scalar 12 1)
    else if bit_depth = 8 ∧ xdec = 0 then some (.scalar 8 0)
    else if bit_depth = 10 ∧ xdec = 0 then some (.scalar 10 0)
    else if bit_depth = 12 ∧ xdec = 0 then some (.scalar 12 0)
    else none

/-- A 9-bit frame: `can_compare` accepts it (bit depth ≤ 16). -/
def frame9bit : FrameInfo where
  planes := ![⟨2, 1, [0, 0]⟩, ⟨1, 1, [0]⟩, ⟨1, 1, [0]⟩]
  bit_depth := 9
  chroma_sampling := .Cs420

/-! ## Chroma realignment (`src/av_metrics/src/video/decode.rs`, C7 and C10) -/

/-- The local `clamp` of `src/av_metrics/src/video/decode.rs`. -/
def clamp (input mn mx : ℤ) : ℤ :=
  if input < mn then mn
  else if input > mx then mx
  else input

/-- Checked `usize` subtraction: `none` models the Rust panic (immediate
overflow panic in debug builds; in release builds the wrapped huge index
panics at the subsequent slice access). -/
def csub (a b : ℕ) : Option ℕ :=
  if a < b then none else some (a - b)

/-- A `get_pixel(in_row, i)` access: `none` models an out-of-bounds slice
index panic. -/
def getPx (row : List ℤ) (i : ℕ) : Option ℤ :=
  row.get? i

/-- The loop body of the first (`x < min(width, 2)`) loop of
`convert_chroma_data`: the leftmost tap reads index 0, the second tap uses
`x.saturating_sub(1)` (which is `ℕ` subtraction), the right taps clamp to
`width - 1`.  `>> 7` on `i32` is an arithmetic shift, i.e. flooring
division by 128 (`Int.shiftRight`). -/
def chromaFilterEdgeLeft (bd w : ℕ) (row : List ℤ) (x : ℕ) : Option ℤ := do
  let p0 ← getPx row 0
  let pm1 ← getPx row (x - 1)
  let pc ← getPx row x
  let p1 ← getPx row (min (x + 1) (w - 1))
  let p2 ← getPx row (min (x + 2) (w - 1))
  let p3 ← getPx row (min (x + 3) (w - 1))
  pure (clamp (Int.shiftRight (4 * p0 - 17 * pm1 + 114 * pc + 35 * p1 - 9 * p2 + p3 + 64) 7)
    0 (2 ^ bd - 1))

/-- The loop body of the middle (`breakpoint..breakpoint2`) loop of
`convert_chroma_data`: raw `usize` index arithmetic (`x - 2`, `x - 1`
checked). -/
def chromaFilterMid (bd : ℕ) (row : List ℤ) (x : ℕ) : Option ℤ := do
  let i2 ← csub x 2
  let i1 ← csub x 1
  let pm2 ← getPx row i2
  let pm1 ← getPx row i1
  let pc ← getPx row x
  let p1 ← getPx row (x + 1)
  let p2 ← getPx row (x + 2)
  let p3 ← getPx row (x + 3)
  pure (clamp (Int.shiftRight (4 * pm2 - 17 * pm1 + 114 * pc + 35 * p1 - 9 * p2 + p3 + 64) 7)
    0 (2 ^ bd - 1))

/-- The loop body of the last (`breakpoint2..width`) loop of
`convert_chroma_data`: left taps `x - 2`, `x - 1` are raw `usize`
subtractions (checked here), taps `x + 1`, `x + 2` clamp to `width - 1`,
the last tap always reads `width - 1`. -/
def chromaFilterEdgeRight (bd w : ℕ) (row : List ℤ) (x : ℕ) : Option ℤ := do
  let i2 ← csub x 2
  let i1 ← csub x 1
  let pm2 ← getPx row i2
  let pm1 ← getPx row i1
  let pc ← getPx row x
  let p1 ← getPx row (min (x + 1) (w - 1))
  let p2 ← getPx row (min (x + 2) (w - 1))
  let p3 ← getPx row (w - 1)
  pure (clamp (Int.shiftRight (4 * pm2 - 17 * pm1 + 114 * pc + 35 * p1 - 9 * p2 + p3 + 64) 7)
    0 (2 ^ bd - 1))

/-- Sequence a list of checked computations; `none` if any panics. -/
def sequenceOpt {α : Type} : List (Option α) → Option (List α)
  | [] => some []
  | none :: _ => none
  | some a :: t => (sequenceOpt t).map (a :: ·)

/-- One row of the `Vertical` branch of `convert_chroma_data`.  The source
runs three loops over `[0, min(w,2))`, `[min(w,2), w-3)` and `[w-3, w)` in
that order, writing `out_row[x]`; for small widths the ranges overlap and
a later loop overwrites an earlier one, so the value at `x` is the one
written by the last loop whose range contains `x`.  The first loop can
never panic on its own range, so evaluating only the winning loop body per
`x` — plus the checked `width - 3` (`csub w 3`), which the source computes
before its second loop — is observationally faithful. -/
def convertRowVertical (bd w : ℕ) (row : List ℤ) : Option (List ℤ) := do
  let bp2 ← csub w 3
  let bp := min w 2
  sequenceOpt ((List.range w).map fun x =>
    if bp2 ≤ x then chromaFilterEdgeRight bd w row x
    else if x < bp then chromaFilterEdgeLeft bd w row x
    else chromaFilterMid bd row x)

/-- `convert_chroma_data` from `src/av_metrics/src/video/decode.rs`
lines 105-181, with the source plane given as its rows of pixel values
(the `u8`/`u16` raw-byte reading of `get_pixel` is abstracted to the
sample values it produces).  For every chroma sample position other than
`Vertical` the data is copied through unchanged
(`copy_from_raw_u8`). -/
def convert_chroma_data (chroma_pos : ChromaSamplePosition) (bd w h : ℕ)
    (src : List (List ℤ)) : Option (List (List ℤ)) :=
  if chroma_pos ≠ .Vertical then
    some src
  else
    sequenceOpt ((List.range h).map fun y => (src.get? y).bind (convertRowVertical bd w))

/-- The 6-tap resampling filter as the spec states it: one uniform formula
with saturating left-tap indices and right taps clamped to `width - 1`
(`[4, −17, 114, 35, −9, 1]/128`, rounded, clamped to `[0, 2^bd − 1]`). -/
def chromaFilterSpec (bd w : ℕ) (p : ℕ → ℤ) (x : ℕ) : ℤ :=
  clamp (Int.shiftRight
    (4 * p (x - 2) - 17 * p (x - 1) + 114 * p x + 35 * p (min (x + 1) (w - 1))
      - 9 * p (min (x + 2) (w - 1)) + p (min (x + 3) (w - 1)) + 64) 7)
    0 (2 ^ bd - 1)

/-! ## CIEDE2000 (`src/av_metrics/src/video/ciede/`, C3)

The per-pixel pipeline is `yuv → rgb` (in `delta_e_scalar`), `rgb → Lab`
(`src/src/video/ciede/rgbtolab/mod.rs`) and the ΔE2000 formula
(`src/av_metrics/src/video/ciede/delta_e/de2000.rs`), all idealised over
`ℝ`.  The source's `rgb_to_lab` computes `pow(x, 2.4)` and `cbrt(x)` by
bit-level manipulation of the `f32` representation (`pow_2_4`,
`cbrt_approx`), which has no shallow real embedding; the frame-level
definitions therefore take the `rgb → Lab` conversion as a parameter, and
`rgb_to_lab_ideal` below is its idealisation with exact real powers. -/

/-- `Lab` from the `lab` crate as used by `de2000.rs`. -/
structure Lab where
  l : ℝ
  a : ℝ
  b : ℝ

/-- `KSubArgs` from `de2000.rs`. -/
structure KSubArgs where
  l : ℝ
  c : ℝ
  h : ℝ

/-- `K_SUB` from `src/av_metrics/src/video/ciede/mod.rs` lines 142-146. -/
noncomputable def K_SUB : KSubArgs where
  l := 0.65
  c := 1.0
  h := 4.0

/-- `f32::atan2`: `y.atan2(x)` is the angle of the point `(x, y)`,
idealised as `Complex.arg`. -/
noncomputable def atan2 (y x : ℝ) : ℝ := Complex.arg ⟨x, y⟩

/-- `get_h_prime_fn` from `de2000.rs` (note the source's `x.atan2(y)`
puts `x` in the `y`-coordinate position). -/
noncomputable def get_h_prime_fn (x y : ℝ) : ℝ :=
  if x = 0 ∧ y = 0 then 0
  else
    let hue_angle := atan2 x y
    if hue_angle < 0 then hue_angle + 2 * Real.pi else hue_angle

/-- `get_delta_h_prime` from `de2000.rs`. -/
noncomputable def get_delta_h_prime (c1 c2 h_prime_1 h_prime_2 : ℝ) : ℝ :=
  if 0 = c1 ∨ 0 = c2 then 0
  else if |h_prime_1 - h_prime_2| ≤ Real.pi then h_prime_2 - h_prime_1
  else if h_prime_2 ≤ h_prime_1 then h_prime_2 - h_prime_1 + 2 * Real.pi
  else h_prime_2 - h_prime_1 - 2 * Real.pi

/-- `get_upcase_h_bar_prime` from `de2000.rs`. -/
noncomputable def get_upcase_h_bar_prime (h_prime_1 h_prime_2 : ℝ) : ℝ :=
  if |h_prime_1 - h_prime_2| > Real.pi then (h_prime_1 + h_prime_2 + 2 * Real.pi) / 2
  else (h_prime_1 + h_prime_2) / 2

/-- `get_upcase_t` from `de2000.rs`. -/
noncomputable def get_upcase_t (upcase_h_bar_prime : ℝ) : ℝ :=
  1 - 0.17 * Real.cos (upcase_h_bar_prime - Real.pi / 6)
    + 0.24 * Real.cos (2 * upcase_h_bar_prime)
    + 0.32 * Real.cos (3 * upcase_h_bar_prime + Real.pi / 30)
    - 0.20 * Real.cos (4 * upcase_h_bar_prime - 7 * Real.pi / 20)

/-- `radians_to_degrees` from `de2000.rs`. -/
noncomputable def radians_to_degrees (radians : ℝ) : ℝ := radians * (180 / Real.pi)

/-- `degrees_to_radians` from `de2000.rs`. -/
noncomputable def degrees_to_radians (degrees : ℝ) : ℝ := degrees * (Real.pi / 180)

/-- `get_r_sub_t` from `de2000.rs`. -/
noncomputable def get_r_sub_t (c_bar_prime upcase_h_bar_prime : ℝ) : ℝ :=
  let degrees := (radians_to_degrees upcase_h_bar_prime - 275) * (1 / 25);
  -2 * Real.sqrt (c_bar_prime ^ 7 / (c_bar_prime ^ 7 + 25 ^ 7))
    * Real.sin (degrees_to_radians (60 * Real.exp (-(degrees ^ 2))))

/-- `DE2000::new` from `de2000.rs`: the CIEDE2000 color difference with
parametric factors `ksub`. -/
noncomputable def DE2000.new (color_1 color_2 : Lab) (ksub : KSubArgs) : ℝ :=
  let delta_l_prime := color_2.l - color_1.l
  let l_bar := (color_1.l + color_2.l) / 2
  let c1 := Real.sqrt (color_1.a ^ 2 + color_1.b ^ 2)
  let c2 := Real.sqrt (color_2.a ^ 2 + color_2.b ^ 2)
  let c_bar := (c1 + c2) / 2
  let tmp := 1 - Real.sqrt (c_bar ^ 7 / (c_bar ^ 7 + 25 ^ 7))
  let a_prime_1 := color_1.a + (color_1.a / 2) * tmp
  let a_prime_2 := color_2.a + (color_2.a / 2) * tmp
  let c_prime_1 := Real.sqrt (a_prime_1 ^ 2 + color_1.b ^ 2)
  let c_prime_2 := Real.sqrt (a_prime_2 ^ 2 + color_2.b ^ 2)
  let c_bar_prime := (c_prime_1 + c_prime_2) / 2
  let delta_c_prime := c_prime_2 - c_prime_1
  let s_sub_l := 1 + (0.015 * (l_bar - 50) ^ 2) / Real.sqrt (20 + (l_bar - 50) ^ 2)
  let s_sub_c := 1 + 0.045 * c_bar_prime
  let h_prime_1 := get_h_prime_fn color_1.b a_prime_1
  let h_prime_2 := get_h_prime_fn color_2.b a_prime_2
  let delta_h_prime := get_delta_h_prime c1 c2 h_prime_1 h_prime_2
  let delta_upcase_h_prime :=
    2 * Real.sqrt (c_prime_1 * c_prime_2) * Real.sin (delta_h_prime / 2)
  let upcase_h_bar_prime := get_upcase_h_bar_prime h_prime_1 h_prime_2
  let upcase_t := get_upcase_t upcase_h_bar_prime
  let s_sub_upcase_h := 1 + 0.015 * c_bar_prime * upcase_t
  let r_sub_t := get_r_sub_t c_bar_prime upcase_h_bar_prime
  let lightness := delta_l_prime / (ksub.l * s_sub_l)
  let chroma := delta_c_prime / (ksub.c * s_sub_c)
  let hue := delta_upcase_h_prime / (ksub.h * s_sub_upcase_h)
  Real.sqrt (lightness ^ 2 + chroma ^ 2 + hue ^ 2 + r_sub_t * chroma * hue)

/-- The BT.709 studio-range YUV → RGB conversion inside `delta_e_scalar`
(`src/av_metrics/src/video/ciede/mod.rs` lines 227-248). -/
noncomputable def yuv_to_rgb (bd : ℕ) (yuv : ℤ × ℤ × ℤ) : ℝ × ℝ × ℝ :=
  let scale : ℝ := 2 ^ (bd - 8)
  let y := ((yuv.1 : ℝ) - 16 * scale) * (1 / (219 * scale))
  let u := ((yuv.2.1 : ℝ) - 128 * scale) * (1 / (224 * scale))
  let v := ((yuv.2.2 : ℝ) - 128 * scale) * (1 / (224 * scale))
  (y + 1.28033 * v, y - 0.21482 * u - 0.38059 * v, y + 2.12798 * u)

/-- `delta_e_scalar` from `src/av_metrics/src/video/ciede/mod.rs`,
parametric in the `rgb → Lab` conversion (see the section comment). -/
noncomputable def delta_e_scalar (rgbToLab : ℝ × ℝ × ℝ → Lab) (bd : ℕ)
    (yuv1 yuv2 : ℤ × ℤ × ℤ) : ℝ :=
  DE2000.new (rgbToLab (yuv_to_rgb bd yuv1)) (rgbToLab (yuv_to_rgb bd yuv2)) K_SUB

/-- `KAPPA` from `src/src/video/ciede/rgbtolab/mod.rs`. -/
noncomputable def KAPPA : ℝ := 24389.0 / 27.0

/-- `EPSILON` from `src/src/video/ciede/rgbtolab/mod.rs`. -/
noncomputable def labEpsilon : ℝ := 216.0 / 24389.0

/-- `rgb_to_xyz_map` with the exact real power in place of `pow_2_4`. -/
noncomputable def rgb_to_xyz_map (c : ℝ) : ℝ :=
  if c > 10 / 255 then ((c + 0.055) * (1 / 1.055)) ^ (2.4 : ℝ)
  else c * (1 / 12.92)

/-- `xyz_to_lab_map` with the exact real cube root in place of
`cbrt_approx`. -/
noncomputable def xyz_to_lab_map (c : ℝ) : ℝ :=
  if c > labEpsilon then c ^ ((1 : ℝ) / 3)
  else (KAPPA * c + 16.0) * (1 / 116.0)

/-- `rgb_to_lab` from `src/src/video/ciede/rgbtolab/mod.rs`, idealised
(exact real powers for the source's bit-level `f32` approximations). -/
noncomputable def rgb_to_lab_ideal (rgb : ℝ × ℝ × ℝ) : Lab :=
  let r := rgb_to_xyz_map rgb.1
  let g := rgb_to_xyz_map rgb.2.1
  let b := rgb_to_xyz_map rgb.2.2
  let xyz0 := r * 0.4124564390896921 + g * 0.357576077643909 + b * 0.18043748326639894
  let xyz1 := r * 0.21267285140562248 + g * 0.715152155287818 + b * 0.07217499330655958
  let xyz2 := r * 0.019333895582329317 + g * 0.119192025881303 + b * 0.9503040785363677
  let x := xyz_to_lab_map (xyz0 * (1 / 0.95047))
  let y := xyz_to_lab_map xyz1
  let z := xyz_to_lab_map (xyz2 * (1 / 1.08883))
  { l := 116.0 * y - 16.0, a := 500.0 * (x - y), b := 200.0 * (y - z) }

/-- A pixel read from a plane buffer (in-bounds for well-formed frames). -/
def planePix (p : PlaneData) (i : ℕ) : ℤ := p.data.getD i 0

/-- The per-frame ΔE accumulation of `Ciede2000::process_frame`
(`src/av_metrics/src/video/ciede/mod.rs` lines 87-127): per luma row `i`
the chroma row `i >> ydec` is read, and within a row the scalar path
duplicates chroma horizontally, i.e. luma column `j` reads chroma column
`j >> xdec`.  The
source iterates each row with `izip!` over the luma row, the
`twice`-interleaved chroma rows and the result row; the direct-indexing
form below coincides with that iteration when the chroma rows cover the
luma width (`⌈w/2^xdec⌉` samples, the frame invariant for 4:2:0/4:2:2/
4:4:4).  For 4:0:0 the source's chroma rows are empty and `izip!` yields
no pixels at all, so this sum is only used for samplings with chroma. -/
noncomputable def ciedeSumDeltaE (rgbToLab : ℝ × ℝ × ℝ → Lab)
    (frame1 frame2 : FrameInfo) : ℝ :=
  let dec := (frame1.chroma_sampling.get_decimation).getD (1, 1)
  let y_width := (frame1.planes 0).width
  let c_width := (frame1.planes 1).width
  ∑ i ∈ Finset.range (frame1.planes 0).height, ∑ j ∈ Finset.range y_width,
    delta_e_scalar rgbToLab frame1.bit_depth
      (planePix (frame1.planes 0) (i * y_width + j),
       planePix (frame1.planes 1) ((i >>> dec.2) * c_width + (j >>> dec.1)),
       planePix (frame1.planes 2) ((i >>> dec.2) * c_width + (j >>> dec.1)))
      (planePix (frame2.planes 0) (i * y_width + j),
       planePix (frame2.planes 1) ((i >>> dec.2) * c_width + (j >>> dec.1)),
       planePix (frame2.planes 2) ((i >>> dec.2) * c_width + (j >>> dec.1)))

/-- `Ciede2000::process_frame`, continued: the ΔE sum is averaged over the
luma pixel count, mapped through `45 − 20·log10`, and capped at 100
(`score.min(100.)`). -/
noncomputable def ciede2000ProcessFrame (rgbToLab : ℝ × ℝ × ℝ → Lab)
    (frame1 frame2 : FrameInfo) : Except MetricsError ℝ := do
  frame1.can_compare frame2
  let y_width := (frame1.planes 0).width
  let y_height := (frame1.planes 0).height
  let total := ciedeSumDeltaE rgbToLab frame1 frame2
  let score := 45 - 20 * Real.logb 10 (total / ((y_width * y_height : ℕ) : ℝ))
  pure (min score 100)

/-- Concrete 4:4:4 frames for the C3 witness. -/
def c3Frame1 : FrameInfo where
  planes := ![⟨1, 1, [50]⟩, ⟨1, 1, [100]⟩, ⟨1, 1, [150]⟩]
  bit_depth := 8
  chroma_sampling := .Cs444

/-- Second concrete frame for the C3 witness. -/
def c3Frame2 : FrameInfo where
  planes := ![⟨1, 1, [60]⟩, ⟨1, 1, [90]⟩, ⟨1, 1, [140]⟩]
  bit_depth := 8
  chroma_sampling := .Cs444

/-! ## PSNR-HVS (`src/av_metrics/src/video/psnr_hvs.rs`, C5)

The per-block pipeline (means/variances, the daala integer 8×8 DCT,
masking, CSF-weighted error) is embedded below.  The source casts samples
to `i16` before the DCT; for samples below `2^15` (all inputs relevant
here) that cast is the identity and it is not modelled separately. -/

/-- An 8×8 CSF table. -/
abbrev Csf := Fin 8 → Fin 8 → ℝ

/-- `CSF_Y` from `src/av_metrics/src/video/psnr_hvs.rs` lines 106-115. -/
noncomputable def CSF_Y : Csf :=
  ![![1.6193873005, 2.2901594831, 2.08509755623, 1.48366094411, 1.00227514334, 0.678296995242, 0.466224900598, 0.3265091542],
    ![2.2901594831, 1.94321815382, 2.04793073064, 1.68731108984, 1.2305666963, 0.868920337363, 0.61280991668, 0.436405793551],
    ![2.08509755623, 2.04793073064, 1.34329019223, 1.09205635862, 0.875748795257, 0.670882927016, 0.501731932449, 0.372504254596],
    ![1.48366094411, 1.68731108984, 1.09205635862, 0.772819797575, 0.605636379554, 0.48309405692, 0.380429446972, 0.295774038565],
    ![1.00227514334, 1.2305666963, 0.875748795257, 0.605636379554, 0.448996256676, 0.352889268808, 0.283006984131, 0.226951348204],
    ![0.678296995242, 0.868920337363, 0.670882927016, 0.48309405692, 0.352889268808, 0.27032073436, 0.215017739696, 0.17408067321],
    ![0.466224900598, 0.61280991668, 0.501731932449, 0.380429446972, 0.283006984131, 0.215017739696, 0.168869545842, 0.136153931001],
    ![0.3265091542, 0.436405793551, 0.372504254596, 0.295774038565, 0.226951348204, 0.17408067321, 0.136153931001, 0.109083846276]]

/-- `CSF_CB420` from `src/av_metrics/src/video/psnr_hvs.rs` lines 118-127. -/
noncomputable def CSF_CB420 : Csf :=
  ![![1.91113096927, 2.46074210438, 1.18284184739, 1.14982565193, 1.05017074788, 0.898018824055, 0.74725392039, 0.615105596242],
    ![2.46074210438, 1.58529308355, 1.21363250036, 1.38190029285, 1.33100189972, 1.17428548929, 0.996404342439, 0.830890433625],
    ![1.18284184739, 1.21363250036, 0.978712413627, 1.02624506078, 1.03145147362, 0.960060382087, 0.849823426169, 0.731221236837],
    ![1.14982565193, 1.38190029285, 1.02624506078, 0.861317501629, 0.801821139099, 0.751437590932, 0.685398513368, 0.608694761374],
    ![1.05017074788, 1.33100189972, 1.03145147362, 0.801821139099, 0.676555426187, 0.605503172737, 0.55002013668, 0.495804539034],
    ![0.898018824055, 1.17428548929, 0.960060382087, 0.751437590932, 0.605503172737, 0.514674450957, 0.454353482512, 0.407050308965],
    ![0.74725392039, 0.996404342439, 0.849823426169, 0.685398513368, 0.55002013668, 0.454353482512, 0.389234902883, 0.342353999733],
    ![0.615105596242, 0.830890433625, 0.731221236837, 0.608694761374, 0.495804539034, 0.407050308965, 0.342353999733, 0.295530605237]]

/-- `CSF_CR420` from `src/av_metrics/src/video/psnr_hvs.rs` lines 130-139. -/
noncomputable def CSF_CR420 : Csf :=
  ![![2.03871978502, 2.62502345193, 1.26180942886, 1.11019789803, 1.01397751469, 0.867069376285, 0.721500455585, 0.593906509971],
    ![2.62502345193, 1.69112867013, 1.17180569821, 1.3342742857, 1.28513006198, 1.13381474809, 0.962064122248, 0.802254508198],
    ![1.26180942886, 1.17180569821, 0.944981930573, 0.990876405848, 0.995903384143, 0.926972725286, 0.820534991409, 0.706020324706],
    ![1.11019789803, 1.3342742857, 0.990876405848, 0.831632933426, 0.77418706195, 0.725539939514, 0.661776842059, 0.587716619023],
    ![1.01397751469, 1.28513006198, 0.995903384143, 0.77418706195, 0.653238524286, 0.584635025748, 0.531064164893, 0.478717061273],
    ![0.867069376285, 1.13381474809, 0.926972725286, 0.725539939514, 0.584635025748, 0.496936637883, 0.438694579826, 0.393021669543],
    ![0.721500455585, 0.962064122248, 0.820534991409, 0.661776842059, 0.531064164893, 0.438694579826, 0.375820256136, 0.330555063063],
    ![0.593906509971, 0.802254508198, 0.706020324706, 0.587716619023, 0.478717061273, 0.393021669543, 0.330555063063, 0.285345396658]]

/-- `CSF_MULTIPLIER` from `src/av_metrics/src/video/psnr_hvs.rs`. -/
noncomputable def CSF_MULTIPLIER : ℝ := 0.3885746225901003

/-- The `let csf = match plane_idx { 0 => &CSF_Y, 1 => &CSF_CB420,
2 => &CSF_CR420, _ => unreachable!() }` of `calculate_plane_psnr_hvs`
(lines 150-155): the table depends only on the plane index, never on the
chroma sampling.  The unreachable arm (never hit: the only call sites pass
0, 1, 2) is modelled as the zero table. -/
noncomputable def psnrHvsCsfTable (plane_idx : ℕ) : Csf :=
  if plane_idx = 0 then CSF_Y
  else if plane_idx = 1 then CSF_CB420
  else if plane_idx = 2 then CSF_CR420
  else fun _ _ => 0

/-- `od_dct_rshift(a, 1)` from `src/av_metrics/src/video/psnr_hvs.rs`:
`((a as u32 >> 31) as i32 + a) >> 1`, i.e. add the sign bit, then
arithmetic shift. -/
def od_dct_rshift (a : ℤ) : ℤ :=
  Int.shiftRight (a + if a < 0 then 1 else 0) 1

/-- `od_bin_fdct8` from `src/av_metrics/src/video/psnr_hvs.rs`
lines 305-366, in SSA form (`>>` on `i32` is `Int.shiftRight`). -/
def od_bin_fdct8 (x : Fin 8 → ℤ) : Fin 8 → ℤ :=
  let t0 := x 0
  let t4 := x 1
  let t2 := x 2
  let t6 := x 3
  let t7 := x 4
  let t3 := x 5
  let t5 := x 6
  let t1 := x 7
  let t1a := t0 - t1
  let th1 := od_dct_rshift t1a
  let t0a := t0 - th1
  let t4a := t4 + t5
  let th4 := od_dct_rshift t4a
  let t5a := t5 - th4
  let t3a := t2 - t3
  let t2a := t2 - od_dct_rshift t3a
  let t6a := t6 + t7
  let th6 := od_dct_rshift t6a
  let t7a := th6 - t7
  let t0b := t0a + th6
  let t6b := t0b - t6a
  let t2b := th4 - t2a
  let t4b := t2b - t4a
  let t0c := t0b - Int.shiftRight (t4b * 13573 + 16384) 15
  let t4c := t4b + Int.shiftRight (t0c * 11585 + 8192) 14
  let t0d := t0c - Int.shiftRight (t4c * 13573 + 16384) 15
  let t6c := t6b - Int.shiftRight (t2b * 21895 + 16384) 15
  let t2c := t2b + Int.shiftRight (t6c * 15137 + 8192) 14
  let t6d := t6c - Int.shiftRight (t2c * 21895 + 16384) 15
  let t3b := t3a + Int.shiftRight (t5a * 19195 + 16384) 15
  let t5b := t5a + Int.shiftRight (t3b * 11585 + 8192) 14
  let t3c := t3b - Int.shiftRight (t5b * 7489 + 4096) 13
  let t7b := od_dct_rshift t5b - t7a
  let t5c := t5b - t7b
  let t3d := th1 - t3c
  let t1b := t1a - t3d
  let t7c := t7b + Int.shiftRight (t1b * 3227 + 16384) 15
  let t1c := t1b - Int.shiftRight (t7c * 6393 + 16384) 15
  let t7d := t7c + Int.shiftRight (t1c * 3227 + 16384) 15
  let t5d := t5c + Int.shiftRight (t3d * 2485 + 4096) 13
  let t3e := t3d - Int.shiftRight (t5d * 18205 + 16384) 15
  let t5e := t5d + Int.shiftRight (t3e * 2485 + 4096) 13
  ![t0d, t1c, t2c, t3e, t4c, t5e, t6d, t7d]

/-- `od_bin_fdct8x8`: a strided column pass into `z`, then a column pass
of `z` into the output rows. -/
def od_bin_fdct8x8 (b : Fin 8 → Fin 8 → ℤ) : Fin 8 → Fin 8 → ℤ :=
  let z : Fin 8 → Fin 8 → ℤ := fun i => od_bin_fdct8 fun k => b k i
  fun i => od_bin_fdct8 fun k => z k i

/-- `let sub = ((i & 12) >> 2) + ((j & 12) >> 1);` — the 4×4 quadrant
index of coefficient `(i, j)`. -/
def subIdx (i j : Fin 8) : ℕ :=
  ((i.val &&& 12) >>> 2) + ((j.val &&& 12) >>> 1)

/-- `p1_gmean`: the block mean. -/
noncomputable def blockGMean (b : Fin 8 → Fin 8 → ℤ) : ℝ :=
  (∑ i : Fin 8, ∑ j : Fin 8, ((b i j : ℤ) : ℝ)) / 64

/-- `p1_means[sub]`: the quadrant means. -/
noncomputable def blockSubMean (b : Fin 8 → Fin 8 → ℤ) (s : ℕ) : ℝ :=
  (∑ i : Fin 8, ∑ j : Fin 8, if subIdx i j = s then ((b i j : ℤ) : ℝ) else 0) / 16

/-- `p1_gvar` after the `64/63` scaling. -/
noncomputable def blockGVar (b : Fin 8 → Fin 8 → ℤ) : ℝ :=
  (∑ i : Fin 8, ∑ j : Fin 8, (((b i j : ℤ) : ℝ) - blockGMean b) ^ 2) * (64 / 63)

/-- `p1_vars[sub]` after the `16/15` scaling. -/
noncomputable def blockSubVar (b : Fin 8 → Fin 8 → ℤ) (s : ℕ) : ℝ :=
  (∑ i : Fin 8, ∑ j : Fin 8,
    if subIdx i j = s then (((b i j : ℤ) : ℝ) - blockSubMean b s) ^ 2 else 0) * (16 / 15)

/-- `if p1_gvar > 0.0 { p1_gvar = p1_vars.iter().sum() / p1_gvar }`. -/
noncomputable def blockGVarRatio (b : Fin 8 → Fin 8 → ℤ) : ℝ :=
  if 0 < blockGVar b then (∑ s ∈ Finset.range 4, blockSubVar b s) / blockGVar b
  else blockGVar b

/-- `mask[x][y] = (csf[x][y] * CSF_MULTIPLIER).powi(2)`. -/
noncomputable def csfMask (csf : Csf) (i j : Fin 8) : ℝ :=
  (csf i j * CSF_MULTIPLIER) ^ 2

/-- The masking accumulator `Σ_{(i,j)≠(0,0)} dct² · mask[i][j]` (the inner
loop starts at `j = 1` when `i = 0`, i.e. only `(0,0)` is skipped). -/
noncomputable def blockMaskAcc (csf : Csf) (d : Fin 8 → Fin 8 → ℤ) : ℝ :=
  ∑ i : Fin 8, ∑ j : Fin 8,
    if i = 0 ∧ j = 0 then 0 else (((d i j) ^ 2 : ℤ) : ℝ) * csfMask csf i j

/-- `p1_mask = (p1_mask * p1_gvar).sqrt() / 32.0` with `p1_gvar` already
replaced by the variance ratio. -/
noncomputable def blockMask (csf : Csf) (b : Fin 8 → Fin 8 → ℤ) : ℝ :=
  Real.sqrt (blockMaskAcc csf (od_bin_fdct8x8 b) * blockGVarRatio b) / 32

/-- The per-block error sum `Σ (err · csf[i][j])²` of
`calculate_plane_psnr_hvs`: the DC coefficient is unthresholded, every AC
coefficient is thresholded by `mask / mask[i][j]` with
`mask = max(p1_mask, p2_mask)`. -/
noncomputable def blockErrSum (csf : Csf) (b1 b2 : Fin 8 → Fin 8 → ℤ) : ℝ :=
  let d1 := od_bin_fdct8x8 b1
  let d2 := od_bin_fdct8x8 b2
  let m1 := blockMask csf b1
  let m2 := blockMask csf b2
  let m := if m1 < m2 then m2 else m1
  ∑ i : Fin 8, ∑ j : Fin 8,
    ((if i = 0 ∧ j = 0 then ((d1 i j - d2 i j).natAbs : ℝ)
      else
        if ((d1 i j - d2 i j).natAbs : ℝ) < m / csfMask csf i j then 0
        else ((d1 i j - d2 i j).natAbs : ℝ) - m / csfMask csf i j) * csf i j) ^ 2

/-- The 8×8 block of a plane at block origin `(y, x)`. -/
def blockOf (p : PlaneData) (y x : ℕ) : Fin 8 → Fin 8 → ℤ :=
  fun i j => planePix p ((y + i.val) * p.width + (x + j.val))

/-- `calculate_plane_psnr_hvs` from `src/av_metrics/src/video/psnr_hvs.rs`
lines 141-284, parametric in the CSF table: an 8×8 window slides in steps
of 7 over `[0, height−7) × [0, width−7)`; the error sum is divided by the
coefficient count (64 per block) and by `sample_max²`. -/
noncomputable def planePsnrHvsWithCsf (csf : Csf) (p1 p2 : PlaneData) (bd : ℕ) : ℝ :=
  let bY := (Finset.range (p1.height - 7)).filter fun y => y % 7 = 0
  let bX := (Finset.range (p1.width - 7)).filter fun x => x % 7 = 0
  let result := ∑ y ∈ bY, ∑ x ∈ bX, blockErrSum csf (blockOf p1 y x) (blockOf p2 y x)
  let pixels := bY.card * bX.card * 64
  result / (pixels : ℝ) / (((2 ^ bd - 1 : ℕ) ^ 2 : ℕ) : ℝ)

/-- `calculate_plane_psnr_hvs` proper: the CSF table is selected from the
plane index alone. -/
noncomputable def calculate_plane_psnr_hvs (p1 p2 : PlaneData)
    (plane_idx bd : ℕ) : ℝ :=
  planePsnrHvsWithCsf (psnrHvsCsfTable plane_idx) p1 p2 bd

/-- `PsnrHvs::process_frame` from `src/av_metrics/src/video/psnr_hvs.rs`
lines 58-79: the *unweighted* per-plane scores; U and V use plane indices
1 and 2 for every chroma sampling (the `avg` field is unused here and set
to 0). -/
noncomputable def psnrHvsProcessFrame (frame1 frame2 : FrameInfo) :
    Except MetricsError PlanarMetrics := do
  frame1.can_compare frame2
  let bit_depth := frame1.bit_depth
  pure
    { y := calculate_plane_psnr_hvs (frame1.planes 0) (frame2.planes 0) 0 bit_depth
      u := calculate_plane_psnr_hvs (frame1.planes 1) (frame2.planes 1) 1 bit_depth
      v := calculate_plane_psnr_hvs (frame1.planes 2) (frame2.planes 2) 2 bit_depth
      avg := 0 }

/-- The all-zero 8×8 plane. -/
def z64 : PlaneData := ⟨8, 8, List.replicate 64 0⟩

/-- The all-one 8×8 plane. -/
def o64 : PlaneData := ⟨8, 8, List.replicate 64 1⟩

/-- Frames for the C5 counterexample: 4:4:4 frames whose U planes are the
constant 0 and constant 1 blocks. -/
def c5Frame1 : FrameInfo where
  planes := ![z64, z64, z64]
  bit_depth := 8
  chroma_sampling := .Cs444

/-- Second frame for the C5 counterexample. -/
def c5Frame2 : FrameInfo where
  planes := ![z64, o64, z64]
  bit_depth := 8
  chroma_sampling := .Cs444

/-! ## Theorems -/

/-! ### Helper lemmas about the PSNR embedding -/

lemma squaredErrorSumNat_cast (d1 d2 : List ℤ) :
    ((squaredErrorSumNat d1 d2 : ℤ)) =
      (List.zipWith (fun a b => (a - b) ^ 2) d1 d2).sum := by
  induction d1 generalizing d2 with
  | nil => simp [squaredErrorSumNat]
  | cons a t ih =>
    cases d2 with
    | nil => simp [squaredErrorSumNat]
    | cons b t2 =>
      have h := ih t2
      simp only [squaredErrorSumNat, List.zipWith_cons_cons, List.sum_cons,
        Nat.cast_add, Nat.cast_mul] at h ⊢
      rw [Int.natAbs_mul_self' (a - b), h]
      ring

lemma squaredErrorSumNat_self (d : List ℤ) : squaredErrorSumNat d d = 0 := by
  induction d with
  | nil => rfl
  | cons a t ih => simp [squaredErrorSumNat, List.zipWith_cons_cons, ih]

lemma calculate_psnr_of_sq_err_zero (m : PsnrMetrics) (h : m.sq_err = 0) :
    calculate_psnr m = 100 := by
  unfold calculate_psnr
  rw [if_pos]
  rw [h, f64Epsilon]
  norm_num

lemma plane_can_compare_self (p : PlaneData) : p.can_compare p = .ok () := by
  unfold PlaneData.can_compare
  rw [if_neg]
  simp

lemma can_compare_self (F : FrameInfo) (hbd : F.bit_depth ≤ 16) :
    F.can_compare F = .ok () := by
  have h1 : ¬ (F.bit_depth ≠ F.bit_depth) := by simp
  have h2 : ¬ (F.bit_depth > 16) := Nat.not_lt.mpr hbd
  have h3 : ¬ (F.chroma_sampling ≠ F.chroma_sampling) := by simp
  unfold FrameInfo.can_compare
  rw [if_neg h1, if_neg h2, if_neg h3]
  simp only [plane_can_compare_self]
  rfl

/-- **C1.** Per-plane PSNR is `10·(log10(max²) + log10 N − log10 SSE)` with
`SSE = Σ (a_i − b_i)²`, `N = width·height` and `max = 2^bd − 1` whenever
`SSE` exceeds the `f64` machine epsilon, and exactly `100` otherwise; in
particular every frame compared with itself scores 100 on every plane and
on the average. -/
theorem c1_psnr_formula_and_identity (p1 p2 : PlaneData) (bd : ℕ)
    (F : FrameInfo) (hbd : F.bit_depth ≤ 16) :
    (calculate_psnr (calculate_plane_psnr_metrics p1 p2 bd) =
      if f64Epsilon <
          (((List.zipWith (fun a b => (a - b) ^ 2) p1.data p2.data).sum : ℤ) : ℝ) then
        10 * (Real.logb 10 (((2 ^ bd - 1 : ℕ) : ℝ) ^ 2)
          + Real.logb 10 ((p1.width * p1.height : ℕ) : ℝ)
          - Real.logb 10
              (((List.zipWith (fun a b => (a - b) ^ 2) p1.data p2.data).sum : ℤ) : ℝ))
      else 100)
    ∧ calculate_frame_psnr F F = .ok ⟨100, 100, 100, 100⟩ := by
  constructor
  · have hsse : calculate_plane_total_squared_error p1 p2 =
        (((List.zipWith (fun a b => (a - b) ^ 2) p1.data p2.data).sum : ℤ) : ℝ) := by
      rw [calculate_plane_total_squared_error, ← squaredErrorSumNat_cast]
      push_cast
      rfl
    unfold calculate_psnr calculate_plane_psnr_metrics
    simp only [hsse]
    rcases le_or_lt (((List.zipWith (fun a b => (a - b) ^ 2) p1.data p2.data).sum : ℤ) : ℝ)
      f64Epsilon with h | h
    · rw [if_pos h, if_neg (not_lt.mpr h)]
    · rw [if_neg (not_le.mpr h), if_pos h]
      push_cast
      ring
  · have hz : ∀ i : Fin 3,
        calculate_plane_total_squared_error (F.planes i) (F.planes i) = 0 := by
      intro i
      rw [calculate_plane_total_squared_error, squaredErrorSumNat_self]
      norm_num
    have hcc := can_compare_self F hbd
    have h100 : ∀ i : Fin 3, calculate_psnr
        (calculate_plane_psnr_metrics (F.planes i) (F.planes i) F.bit_depth) = 100 :=
      fun i => calculate_psnr_of_sq_err_zero _ (hz i)
    have havg : calculate_summed_psnr
        [calculate_plane_psnr_metrics (F.planes 0) (F.planes 0) F.bit_depth,
         calculate_plane_psnr_metrics (F.planes 1) (F.planes 1) F.bit_depth,
         calculate_plane_psnr_metrics (F.planes 2) (F.planes 2) F.bit_depth] = 100 := by
      unfold calculate_summed_psnr
      apply calculate_psnr_of_sq_err_zero
      simp [psnrSumStep, calculate_plane_psnr_metrics, hz]
    have hstep : calculate_frame_psnr F F = Except.ok
        { y := calculate_psnr
            (calculate_plane_psnr_metrics (F.planes 0) (F.planes 0) F.bit_depth)
          u := calculate_psnr
            (calculate_plane_psnr_metrics (F.planes 1) (F.planes 1) F.bit_depth)
          v := calculate_psnr
            (calculate_plane_psnr_metrics (F.planes 2) (F.planes 2) F.bit_depth)
          avg := calculate_summed_psnr
            [calculate_plane_psnr_metrics (F.planes 0) (F.planes 0) F.bit_depth,
             calculate_plane_psnr_metrics (F.planes 1) (F.planes 1) F.bit_depth,
             calculate_plane_psnr_metrics (F.planes 2) (F.planes 2) F.bit_depth] } := by
      unfold calculate_frame_psnr psnrProcessFrame
      rw [hcc]
      rfl
    rw [hstep, h100 0, h100 1, h100 2, havg]

/-- Witness for C1 at a concrete frame. -/
theorem c1_witness :
    calculate_frame_psnr c1Frame c1Frame = .ok ⟨100, 100, 100, 100⟩ :=
  (c1_psnr_formula_and_identity ⟨1, 1, [3]⟩ ⟨1, 1, [5]⟩ 8 c1Frame
    (by norm_num [c1Frame])).2

lemma foldl_psnrSumStep (l : List PsnrMetrics) (M : ℕ) (acc : PsnrMetrics)
    (hM : ∀ m ∈ l, m.sample_max = M) (hne : l ≠ []) :
    l.foldl psnrSumStep acc =
      { sq_err := acc.sq_err + (l.map (·.sq_err)).sum
        n_pixels := acc.n_pixels + (l.map (·.n_pixels)).sum
        sample_max := M } := by
  induction l generalizing acc with
  | nil => exact absurd rfl hne
  | cons x t ih =>
    rcases eq_or_ne t [] with rfl | hne2
    · simp only [List.foldl_cons, List.foldl_nil, List.map_cons, List.map_nil,
        List.sum_cons, List.sum_nil, psnrSumStep]
      have := hM x (by simp)
      simp [this]
    · rw [List.foldl_cons,
        ih (psnrSumStep acc x) (fun m hm => hM m (List.mem_cons_of_mem x hm)) hne2]
      simp only [psnrSumStep, List.map_cons, List.sum_cons]
      congr 1 <;> dsimp <;> ring

lemma calculate_summed_psnr_eq (l : List PsnrMetrics) (M : ℕ)
    (hM : ∀ m ∈ l, m.sample_max = M) (hne : l ≠ []) :
    calculate_summed_psnr l = calculate_psnr
      { sq_err := (l.map (·.sq_err)).sum
        n_pixels := (l.map (·.n_pixels)).sum
        sample_max := M } := by
  unfold calculate_summed_psnr
  rw [foldl_psnrSumStep l M _ hM hne]
  norm_num

lemma flatMap_planes_map_sum {α : Type} [AddCommMonoid α]
    (ms : List Psnr3) (f : PsnrMetrics → α) :
    (((ms.flatMap fun m => [m.y, m.u, m.v]).map f).sum) =
      (ms.map fun m => f m.y + f m.u + f m.v).sum := by
  induction ms with
  | nil => rfl
  | cons x t ih => simp [List.flatMap_cons, ih, add_assoc]

/-- **C2.** For a non-empty vector of per-frame PSNR triples, global PSNR
applies the formula to across-frame sums of SSE and N (per plane, and
summed over all three planes for `avg`), while APSNR arithmetic-means the
per-frame values (per-frame summed-SSE values for `avg`). -/
theorem c2_psnr_aggregation (ms : List Psnr3) (M : ℕ) (hne : ms ≠ [])
    (hM : ∀ m ∈ ms, m.y.sample_max = M ∧ m.u.sample_max = M ∧ m.v.sample_max = M) :
    psnrAggregateFrameResults ms =
      { psnr :=
          { y := calculate_psnr ⟨(ms.map (·.y.sq_err)).sum, (ms.map (·.y.n_pixels)).sum, M⟩
            u := calculate_psnr ⟨(ms.map (·.u.sq_err)).sum, (ms.map (·.u.n_pixels)).sum, M⟩
            v := calculate_psnr ⟨(ms.map (·.v.sq_err)).sum, (ms.map (·.v.n_pixels)).sum, M⟩
            avg := calculate_psnr
              ⟨(ms.map fun m => m.y.sq_err + m.u.sq_err + m.v.sq_err).sum,
               (ms.map fun m => m.y.n_pixels + m.u.n_pixels + m.v.n_pixels).sum, M⟩ }
        apsnr :=
          { y := (ms.map fun m => calculate_psnr m.y).sum / ms.length
            u := (ms.map fun m => calculate_psnr m.u).sum / ms.length
            v := (ms.map fun m => calculate_psnr m.v).sum / ms.length
            avg := (ms.map fun m => calculate_psnr
                ⟨m.y.sq_err + m.u.sq_err + m.v.sq_err,
                 m.y.n_pixels + m.u.n_pixels + m.v.n_pixels, M⟩).sum / ms.length } } := by
  have hyM : ∀ p ∈ ms.map (·.y), p.sample_max = M := by
    intro p hp
    obtain ⟨m, hm, rfl⟩ := List.mem_map.mp hp
    exact (hM m hm).1
  have huM : ∀ p ∈ ms.map (·.u), p.sample_max = M := by
    intro p hp
    obtain ⟨m, hm, rfl⟩ := List.mem_map.mp hp
    exact (hM m hm).2.1
  have hvM : ∀ p ∈ ms.map (·.v), p.sample_max = M := by
    intro p hp
    obtain ⟨m, hm, rfl⟩ := List.mem_map.mp hp
    exact (hM m hm).2.2
  have hmapne : ∀ f : Psnr3 → PsnrMetrics, ms.map f ≠ [] := by
    intro f h
    exact hne (List.map_eq_nil_iff.mp h)
  have hflatne : (ms.flatMap fun m => [m.y, m.u, m.v]) ≠ [] := by
    cases ms with
    | nil => exact absurd rfl hne
    | cons x t => simp [List.flatMap_cons]
  have hflatM : ∀ p ∈ ms.flatMap fun m => [m.y, m.u, m.v], p.sample_max = M := by
    intro p hp
    obtain ⟨m, hm, hpm⟩ := List.mem_flatMap.mp hp
    rcases hM m hm with ⟨h1, h2, h3⟩
    simp only [List.mem_cons, List.mem_singleton, List.not_mem_nil, or_false] at hpm
    rcases hpm with rfl | rfl | rfl <;> assumption
  have hperframe : ∀ m ∈ ms, calculate_summed_psnr [m.y, m.u, m.v] =
      calculate_psnr ⟨m.y.sq_err + m.u.sq_err + m.v.sq_err,
        m.y.n_pixels + m.u.n_pixels + m.v.n_pixels, M⟩ := by
    intro m hm
    rcases hM m hm with ⟨h1, h2, h3⟩
    rw [calculate_summed_psnr_eq [m.y, m.u, m.v] M (by
      intro p hp
      simp only [List.mem_cons, List.mem_singleton, List.not_mem_nil, or_false] at hp
      rcases hp with rfl | rfl | rfl <;> assumption) (by simp)]
    simp [add_assoc]
  unfold psnrAggregateFrameResults
  congr 1
  · congr 1
    · rw [calculate_summed_psnr_eq _ M hyM (hmapne _)]
      simp only [List.map_map, Function.comp_def]
    · rw [calculate_summed_psnr_eq _ M huM (hmapne _)]
      simp only [List.map_map, Function.comp_def]
    · rw [calculate_summed_psnr_eq _ M hvM (hmapne _)]
      simp only [List.map_map, Function.comp_def]
    · rw [calculate_summed_psnr_eq _ M hflatM hflatne]
      rw [flatMap_planes_map_sum, flatMap_planes_map_sum]
  · congr 1
    rw [List.map_congr_left hperframe]

/-- Witness for C2 at a concrete one-frame list. -/
theorem c2_witness :
    psnrAggregateFrameResults [⟨⟨4, 2, 255⟩, ⟨1, 1, 255⟩, ⟨0, 1, 255⟩⟩] =
      { psnr :=
          { y := calculate_psnr ⟨4, 2, 255⟩
            u := calculate_psnr ⟨1, 1, 255⟩
            v := calculate_psnr ⟨0, 1, 255⟩
            avg := calculate_psnr ⟨4 + 1 + 0, 2 + 1 + 1, 255⟩ }
        apsnr :=
          { y := calculate_psnr ⟨4, 2, 255⟩ / 1
            u := calculate_psnr ⟨1, 1, 255⟩ / 1
            v := calculate_psnr ⟨0, 1, 255⟩ / 1
            avg := calculate_psnr ⟨4 + 1 + 0, 2 + 1 + 1, 255⟩ / 1 } } := by
  have h := c2_psnr_aggregation [⟨⟨4, 2, 255⟩, ⟨1, 1, 255⟩, ⟨0, 1, 255⟩⟩] 255
    (by simp)
    (by
      intro m hm
      simp only [List.mem_singleton] at hm
      subst hm
      exact ⟨rfl, rfl, rfl⟩)
  simpa using h

/-! ### C4: bounds on the per-plane PSNR -/

lemma squaredErrorSumNat_le (m : ℕ) :
    ∀ (d1 d2 : List ℤ), (∀ a ∈ d1, 0 ≤ a ∧ a ≤ (m : ℤ)) →
      (∀ a ∈ d2, 0 ≤ a ∧ a ≤ (m : ℤ)) →
      squaredErrorSumNat d1 d2 ≤ d1.length * (m * m)
  | [], _, _, _ => by simp [squaredErrorSumNat]
  | _ :: _, [], _, _ => by simp [squaredErrorSumNat]
  | a :: t, b :: t2, h1, h2 => by
      have hab : (a - b).natAbs ≤ m := by
        have ha := h1 a (by simp)
        have hb := h2 b (by simp)
        omega
      have hrec := squaredErrorSumNat_le m t t2
        (fun x hx => h1 x (List.mem_cons_of_mem a hx))
        (fun x hx => h2 x (List.mem_cons_of_mem b hx))
      have hstep : squaredErrorSumNat (a :: t) (b :: t2) =
          (a - b).natAbs * (a - b).natAbs + squaredErrorSumNat t t2 := by
        simp [squaredErrorSumNat, List.zipWith_cons_cons]
      rw [hstep]
      have : (a - b).natAbs * (a - b).natAbs ≤ m * m :=
        Nat.mul_le_mul hab hab
      calc (a - b).natAbs * (a - b).natAbs + squaredErrorSumNat t t2
          ≤ m * m + t.length * (m * m) := Nat.add_le_add this hrec
        _ = (a :: t).length * (m * m) := by simp [List.length_cons]; ring

/-- **C4 (amended).** For planes whose samples lie in `[0, 2^bd − 1]` and
whose buffer has `width·height` samples, the per-plane PSNR is nonnegative.
The upper bound 100 claimed by the spec does not hold in general (see the
counterexample): the 100 cap applies only when `SSE ≤ ε`. -/
theorem c4_psnr_plane_nonneg (p1 p2 : PlaneData) (bd : ℕ)
    (hlen : p1.data.length = p1.width * p1.height)
    (h1 : ∀ a ∈ p1.data, 0 ≤ a ∧ a ≤ (2 ^ bd - 1 : ℤ))
    (h2 : ∀ a ∈ p2.data, 0 ≤ a ∧ a ≤ (2 ^ bd - 1 : ℤ)) :
    0 ≤ calculate_psnr (calculate_plane_psnr_metrics p1 p2 bd) := by
  have hone : (1 : ℕ) ≤ 2 ^ bd := Nat.one_le_two_pow
  have hMcast : (((2 ^ bd - 1 : ℕ) : ℤ)) = 2 ^ bd - 1 := by
    push_cast [hone]
    ring
  have h1' : ∀ a ∈ p1.data, 0 ≤ a ∧ a ≤ ((2 ^ bd - 1 : ℕ) : ℤ) := by
    intro a ha
    rw [hMcast]
    exact h1 a ha
  have h2' : ∀ a ∈ p2.data, 0 ≤ a ∧ a ≤ ((2 ^ bd - 1 : ℕ) : ℤ) := by
    intro a ha
    rw [hMcast]
    exact h2 a ha
  have hsse_le : squaredErrorSumNat p1.data p2.data ≤
      (p1.width * p1.height) * ((2 ^ bd - 1) * (2 ^ bd - 1)) := by
    rw [← hlen]
    exact squaredErrorSumNat_le (2 ^ bd - 1) p1.data p2.data h1' h2'
  have hfields : calculate_plane_psnr_metrics p1 p2 bd =
      ⟨((squaredErrorSumNat p1.data p2.data : ℕ) : ℝ),
        p1.width * p1.height, 2 ^ bd - 1⟩ := rfl
  rw [hfields]
  unfold calculate_psnr
  dsimp only
  by_cases hle : ((squaredErrorSumNat p1.data p2.data : ℕ) : ℝ) ≤ f64Epsilon
  · rw [if_pos hle]
    norm_num
  · rw [if_neg hle]
    have hsse1 : 1 ≤ squaredErrorSumNat p1.data p2.data := by
      by_contra h
      push_neg at h
      have h0 : squaredErrorSumNat p1.data p2.data = 0 := Nat.lt_one_iff.mp h
      apply hle
      rw [h0, f64Epsilon]
      norm_num
    have hN1 : 1 ≤ p1.width * p1.height := by
      rcases Nat.eq_zero_or_pos (p1.width * p1.height) with h0 | h
      · rw [h0] at hsse_le
        omega
      · exact h
    have hM1 : 1 ≤ 2 ^ bd - 1 := by
      rcases Nat.eq_zero_or_pos (2 ^ bd - 1) with h0 | h
      · rw [h0] at hsse_le
        simp at hsse_le
        omega
      · exact h
    have hMsq : 0 < (2 ^ bd - 1) ^ 2 := pow_pos hM1 2
    have key : Real.logb 10 ((squaredErrorSumNat p1.data p2.data : ℕ) : ℝ) ≤
        Real.logb 10 ((((2 ^ bd - 1) ^ 2 : ℕ)) : ℝ)
          + Real.logb 10 ((p1.width * p1.height : ℕ) : ℝ) := by
      rw [← Real.logb_mul (Nat.cast_ne_zero.mpr hMsq.ne')
        (Nat.cast_ne_zero.mpr (by omega))]
      apply Real.logb_le_logb_of_le (by norm_num : (1 : ℝ) < 10)
        (by exact_mod_cast hsse1)
      have hfin : squaredErrorSumNat p1.data p2.data ≤
          (2 ^ bd - 1) ^ 2 * (p1.width * p1.height) := by
        calc squaredErrorSumNat p1.data p2.data
            ≤ (p1.width * p1.height) * ((2 ^ bd - 1) * (2 ^ bd - 1)) := hsse_le
          _ = (2 ^ bd - 1) ^ 2 * (p1.width * p1.height) := by ring
      exact_mod_cast hfin
    linarith

/-- Witness for C4 (amended): nonnegativity at a concrete plane pair. -/
theorem c4_witness :
    0 ≤ calculate_psnr (calculate_plane_psnr_metrics ⟨2, 1, [0, 250]⟩ ⟨2, 1, [255, 3]⟩ 8) :=
  c4_psnr_plane_nonneg ⟨2, 1, [0, 250]⟩ ⟨2, 1, [255, 3]⟩ 8 (by norm_num)
    (by decide) (by decide)

/-- **C4 (counterexample).** A 16-bit, 3-pixel plane pair whose SSE is 1
has PSNR `10·log10(65535²·3) ≈ 101.1 > 100`: the claimed upper bound 100
fails. -/
theorem c4_counterexample :
    100 < calculate_psnr (calculate_plane_psnr_metrics ⟨3, 1, [0, 0, 0]⟩ ⟨3, 1, [1, 0, 0]⟩ 16) := by
  have hsse : squaredErrorSumNat [0, 0, 0] [1, 0, 0] = 1 := by decide
  have hm : calculate_plane_psnr_metrics ⟨3, 1, [0, 0, 0]⟩ ⟨3, 1, [1, 0, 0]⟩ 16 =
      { sq_err := 1, n_pixels := 3, sample_max := 65535 } := by
    unfold calculate_plane_psnr_metrics calculate_plane_total_squared_error
    rw [hsse]
    norm_num
  rw [hm]
  unfold calculate_psnr
  rw [if_neg (by rw [f64Epsilon]; norm_num)]
  have hlogb1 : Real.logb 10 ((1 : ℝ)) = 0 := Real.logb_one
  have hprod : Real.logb 10 (((65535 ^ 2 : ℕ) : ℝ)) + Real.logb 10 ((3 : ℕ) : ℝ) =
      Real.logb 10 12884508675 := by
    rw [← Real.logb_mul (by norm_num) (by norm_num)]
    norm_num
  have hten : Real.logb 10 ((10 : ℝ) ^ (10 : ℕ)) = 10 := by
    rw [Real.logb_pow, Real.logb_self_eq_one (by norm_num)]
    norm_num
  have hlt : (10 : ℝ) < Real.logb 10 12884508675 := by
    have hmono := Real.logb_lt_logb (by norm_num : (1 : ℝ) < 10)
      (by positivity : (0 : ℝ) < (10 : ℝ) ^ (10 : ℕ))
      (by norm_num : ((10 : ℝ) ^ (10 : ℕ)) < 12884508675)
    rw [hten] at hmono
    exact hmono
  simp only [PsnrMetrics.sq_err, PsnrMetrics.n_pixels, PsnrMetrics.sample_max]
  rw [hlogb1]
  have : 10 < Real.logb 10 (((65535 ^ 2 : ℕ) : ℝ)) + Real.logb 10 ((3 : ℕ) : ℝ) := by
    rw [hprod]
    exact hlt
  linarith

/-! ### C6: monochrome frames -/

/-- Core fact for C6: when both chroma planes of both frames are empty,
the frame PSNR succeeds with `u = v = 100` and `avg` equal to the luma
score exactly. -/
lemma frame_psnr_with_empty_chroma (F1 F2 : FrameInfo)
    (hbd : F1.bit_depth ≤ 16) (hbdeq : F1.bit_depth = F2.bit_depth)
    (hcs : F1.chroma_sampling = F2.chroma_sampling)
    (hyw : (F1.planes 0).width = (F2.planes 0).width)
    (hyh : (F1.planes 0).height = (F2.planes 0).height)
    (hu1 : F1.planes 1 = ⟨0, 0, []⟩) (hu2 : F2.planes 1 = ⟨0, 0, []⟩)
    (hv1 : F1.planes 2 = ⟨0, 0, []⟩) (hv2 : F2.planes 2 = ⟨0, 0, []⟩) :
    calculate_frame_psnr F1 F2 = .ok
      { y := calculate_psnr
          (calculate_plane_psnr_metrics (F1.planes 0) (F2.planes 0) F1.bit_depth)
        u := 100
        v := 100
        avg := calculate_psnr
          (calculate_plane_psnr_metrics (F1.planes 0) (F2.planes 0) F1.bit_depth) } := by
  have hcc : F1.can_compare F2 = .ok () := by
    unfold FrameInfo.can_compare PlaneData.can_compare
    rw [if_neg (by simp [hbdeq]), if_neg (Nat.not_lt.mpr hbd), if_neg (by simp [hcs]),
      if_neg (by simp [hyw, hyh]), if_neg (by simp [hu1, hu2]), if_neg (by simp [hv1, hv2])]
    rfl
  have hempty : calculate_plane_psnr_metrics (⟨0, 0, []⟩ : PlaneData) ⟨0, 0, []⟩ F1.bit_depth =
      { sq_err := 0, n_pixels := 0, sample_max := 2 ^ F1.bit_depth - 1 } := by
    unfold calculate_plane_psnr_metrics calculate_plane_total_squared_error
    simp [squaredErrorSumNat]
  have h100 : calculate_psnr
      { sq_err := 0, n_pixels := 0, sample_max := 2 ^ F1.bit_depth - 1 } = 100 :=
    calculate_psnr_of_sq_err_zero _ rfl
  have havg : calculate_summed_psnr
      [calculate_plane_psnr_metrics (F1.planes 0) (F2.planes 0) F1.bit_depth,
       { sq_err := 0, n_pixels := 0, sample_max := 2 ^ F1.bit_depth - 1 },
       { sq_err := 0, n_pixels := 0, sample_max := 2 ^ F1.bit_depth - 1 }] =
      calculate_psnr
        (calculate_plane_psnr_metrics (F1.planes 0) (F2.planes 0) F1.bit_depth) := by
    unfold calculate_summed_psnr
    congr 1
    simp only [List.foldl_cons, List.foldl_nil, psnrSumStep]
    unfold calculate_plane_psnr_metrics
    norm_num
  have hstep : calculate_frame_psnr F1 F2 = Except.ok
      { y := calculate_psnr
          (calculate_plane_psnr_metrics (F1.planes 0) (F2.planes 0) F1.bit_depth)
        u := calculate_psnr
          (calculate_plane_psnr_metrics (F1.planes 1) (F2.planes 1) F1.bit_depth)
        v := calculate_psnr
          (calculate_plane_psnr_metrics (F1.planes 2) (F2.planes 2) F1.bit_depth)
        avg := calculate_summed_psnr
          [calculate_plane_psnr_metrics (F1.planes 0) (F2.planes 0) F1.bit_depth,
           calculate_plane_psnr_metrics (F1.planes 1) (F2.planes 1) F1.bit_depth,
           calculate_plane_psnr_metrics (F1.planes 2) (F2.planes 2) F1.bit_depth] } := by
    unfold calculate_frame_psnr psnrProcessFrame
    rw [hcc]
    rfl
  rw [hstep, hu1, hu2, hv1, hv2, hempty, h100, havg]

/-- **C6 (amended).** For monochrome frame pairs (empty chroma planes) the
planar PSNR result has `u = 100` and `v = 100` (the `SSE ≤ ε` cap, not 0 as
the spec claims), and `avg` equals `y` exactly. -/
theorem c6_monochrome_u_v_100_avg_y (F1 F2 : FrameInfo)
    (hbd : F1.bit_depth ≤ 16) (hbdeq : F1.bit_depth = F2.bit_depth)
    (hcs : F1.chroma_sampling = F2.chroma_sampling)
    (hyw : (F1.planes 0).width = (F2.planes 0).width)
    (hyh : (F1.planes 0).height = (F2.planes 0).height)
    (hu1 : F1.planes 1 = ⟨0, 0, []⟩) (hu2 : F2.planes 1 = ⟨0, 0, []⟩)
    (hv1 : F1.planes 2 = ⟨0, 0, []⟩) (hv2 : F2.planes 2 = ⟨0, 0, []⟩) :
    ∃ r, calculate_frame_psnr F1 F2 = .ok r ∧ r.u = 100 ∧ r.v = 100 ∧ r.avg = r.y :=
  ⟨_, frame_psnr_with_empty_chroma F1 F2 hbd hbdeq hcs hyw hyh hu1 hu2 hv1 hv2,
    rfl, rfl, rfl⟩

/-- Witness for C6 (amended) at concrete monochrome frames. -/
theorem c6_witness :
    ∃ r, calculate_frame_psnr monoFrame monoFrame2 = .ok r ∧
      r.u = 100 ∧ r.v = 100 ∧ r.avg = r.y :=
  c6_monochrome_u_v_100_avg_y monoFrame monoFrame2 (by norm_num [monoFrame])
    (by decide) (by decide) (by decide) (by decide) (by decide) (by decide)
    (by decide) (by decide)

/-- **C6 (counterexample).** For a concrete monochrome frame pair the `u`
field of the PSNR result is not 0 (it is 100), refuting the claim
`u = v = 0`. -/
theorem c6_counterexample :
    (calculate_frame_psnr monoFrame monoFrame).map PlanarMetrics.u ≠ Except.ok 0 := by
  rw [frame_psnr_with_empty_chroma monoFrame monoFrame (by norm_num [monoFrame])
    rfl rfl (by decide) (by decide) (by decide) (by decide) (by decide) (by decide)]
  simp only [Except.map]
  intro h
  have h2 : (100 : ℝ) = 0 := Except.ok.inj h
  norm_num at h2

/-- **C9.** If the two decoders report different bit depths or different
chroma samplings, `process_video` returns `InputMismatch`, and it does so
before reading any frame: the result is the same as for decoders holding
no frames at all. -/
theorem c9_mismatch_errors_before_reading {α β γ : Type}
    (process_frame : α → α → Except MetricsError β)
    (aggregate : List β → Except MetricsError γ)
    (bd1 bd2 : ℕ) (cs1 cs2 : ChromaSampling) (fs1 fs2 : List α) (lim : Option ℕ)
    (hmis : bd1 ≠ bd2 ∨ cs1 ≠ cs2) :
    (∃ reason, processVideoModel process_frame aggregate
        ⟨bd1, cs1, fs1⟩ ⟨bd2, cs2, fs2⟩ lim = .error (.InputMismatch reason)) ∧
    processVideoModel process_frame aggregate ⟨bd1, cs1, fs1⟩ ⟨bd2, cs2, fs2⟩ lim =
      processVideoModel process_frame aggregate ⟨bd1, cs1, []⟩ ⟨bd2, cs2, []⟩ lim := by
  by_cases hbd : bd1 = bd2
  · have hcs : cs1 ≠ cs2 := hmis.resolve_left (by simp [hbd])
    constructor
    · refine ⟨"Chroma samplings do not match", ?_⟩
      unfold processVideoModel
      rw [if_neg (by simp [hbd]), if_pos (by simpa using hcs)]
    · unfold processVideoModel
      rw [if_neg (by simp [hbd]), if_pos (by simpa using hcs),
        if_neg (by simp [hbd]), if_pos (by simpa using hcs)]
  · constructor
    · refine ⟨"Bit depths do not match", ?_⟩
      unfold processVideoModel
      rw [if_pos (by simpa using hbd)]
    · unfold processVideoModel
      rw [if_pos (by simpa using hbd), if_pos (by simpa using hbd)]

/-- Witness for C9 at concrete mismatched decoders. -/
theorem c9_witness :
    (∃ reason, processVideoModel (fun a b : ℕ => Except.ok (a + b))
        (fun l => Except.ok l.length)
        ⟨8, .Cs420, [1, 2]⟩ ⟨10, .Cs420, [3, 4]⟩ none = .error (.InputMismatch reason)) ∧
    processVideoModel (fun a b : ℕ => Except.ok (a + b)) (fun l => Except.ok l.length)
        ⟨8, .Cs420, [1, 2]⟩ ⟨10, .Cs420, [3, 4]⟩ none =
      processVideoModel (fun a b : ℕ => Except.ok (a + b)) (fun l => Except.ok l.length)
        ⟨8, .Cs420, []⟩ ⟨10, .Cs420, []⟩ none :=
  c9_mismatch_errors_before_reading _ _ 8 10 .Cs420 .Cs420 [1, 2] [3, 4] none
    (Or.inl (by norm_num))

/-- **C8 (counterexample).** Bit depth 9 passes the frame-comparability
check, yet `get_delta_e_row_fn` hits its `unreachable!()` branch (modelled
as `none`) instead of selecting the scalar path, whether or not AVX2/SIMD
is available. -/
theorem c8_counterexample :
    frame9bit.can_compare frame9bit = .ok () ∧
    get_delta_e_row_fn 9 1 true true = none ∧
    get_delta_e_row_fn 9 1 true false = none ∧
    get_delta_e_row_fn 9 1 false false = none :=
  ⟨rfl, rfl, rfl, rfl⟩

/-- **C8 (amended).** `get_delta_e_row_fn` is total exactly for bit depths
8, 10 and 12 (for the chroma decimations 0 and 1 that occur): every other
bit depth accepted by `can_compare` reaches the `unreachable!()` branch.
When the AVX2 conditions do not hold, the supported depths select the
scalar path. -/
theorem c8_dispatch_total_iff (bd xdec : ℕ) (simd avx : Bool)
    (hx : xdec = 0 ∨ xdec = 1) :
    ((get_delta_e_row_fn bd xdec simd avx).isSome ↔ bd = 8 ∨ bd = 10 ∨ bd = 12) ∧
    (¬(avx = true ∧ xdec = 1 ∧ simd = true) → (bd = 8 ∨ bd = 10 ∨ bd = 12) →
      get_delta_e_row_fn bd xdec simd avx = some (.scalar bd xdec)) := by
  constructor
  · unfold get_delta_e_row_fn
    rcases hx with rfl | rfl <;> split_ifs <;> simp_all
  · intro hno hbd
    unfold get_delta_e_row_fn
    rw [if_neg hno]
    rcases hx with rfl | rfl <;> rcases hbd with rfl | rfl | rfl <;> simp

/-- Witness for C8 (amended) at a concrete dispatch configuration. -/
theorem c8_witness :
    ((get_delta_e_row_fn 9 0 false false).isSome ↔ 9 = 8 ∨ 9 = 10 ∨ 9 = 12) ∧
    (¬(false = true ∧ 0 = 1 ∧ false = true) → (9 = 8 ∨ 9 = 10 ∨ 9 = 12) →
      get_delta_e_row_fn 9 0 false false = some (.scalar 9 0)) :=
  c8_dispatch_total_iff 9 0 false false (Or.inl rfl)

lemma sequenceOpt_isSome_iff {α : Type} (l : List (Option α)) :
    (sequenceOpt l).isSome ↔ ∀ o ∈ l, o.isSome := by
  induction l with
  | nil => simp [sequenceOpt]
  | cons x t ih =>
    cases x with
    | none => simp [sequenceOpt]
    | some a =>
      cases hst : sequenceOpt t with
      | none =>
        rw [hst] at ih
        simp only [sequenceOpt, hst, Option.map_none']
        simp only [Option.isSome_none, Bool.false_eq_true, false_iff] at ih ⊢
        intro hall
        exact ih fun o ho => hall o (List.mem_cons_of_mem _ ho)
      | some r =>
        rw [hst] at ih
        simp only [sequenceOpt, hst, Option.map_some']
        simp only [Option.isSome_some, true_iff] at ih
        simp only [Option.isSome_some, true_iff, List.mem_cons]
        intro o ho
        rcases ho with rfl | ho
        · rfl
        · exact ih o ho

lemma sequenceOpt_length {α : Type} :
    ∀ {l : List (Option α)} {ys : List α}, sequenceOpt l = some ys →
      ys.length = l.length := by
  intro l
  induction l with
  | nil =>
    intro ys h
    simp only [sequenceOpt, Option.some.injEq] at h
    subst h
    rfl
  | cons x t ih =>
    intro ys h
    cases x with
    | none => simp [sequenceOpt] at h
    | some a =>
      cases hst : sequenceOpt t with
      | none => simp [sequenceOpt, hst] at h
      | some r =>
        simp only [sequenceOpt, hst, Option.map_some', Option.some.injEq] at h
        subst h
        simp [ih hst]

lemma sequenceOpt_get {α : Type} :
    ∀ {l : List (Option α)} {ys : List α}, sequenceOpt l = some ys →
      ∀ i o, l.get? i = some o → ∃ a, o = some a ∧ ys.get? i = some a := by
  intro l
  induction l with
  | nil =>
    intro ys h i o hio
    simp at hio
  | cons x t ih =>
    intro ys h i o hio
    cases x with
    | none => simp [sequenceOpt] at h
    | some a =>
      cases hst : sequenceOpt t with
      | none => simp [sequenceOpt, hst] at h
      | some r =>
        simp only [sequenceOpt, hst, Option.map_some', Option.some.injEq] at h
        subst h
        cases i with
        | zero =>
          simp only [List.get?_cons_zero, Option.some.injEq] at hio
          exact ⟨a, hio.symm, rfl⟩
        | succ n =>
          simp only [List.get?_cons_succ] at hio
          obtain ⟨b, hb, hys⟩ := ih hst n o hio
          exact ⟨b, hb, by simpa using hys⟩

lemma getPx_lt (row : List ℤ) (i : ℕ) (h : i < row.length) :
    getPx row i = some (row.getD i 0) := by
  unfold getPx
  cases hx : row.get? i with
  | none =>
    exact absurd (List.get?_eq_none.mp hx) (by omega)
  | some v =>
    rw [List.getD_eq_get?, hx]
    rfl

lemma chromaFilterEdgeLeft_eq (bd w : ℕ) (row : List ℤ) (x : ℕ)
    (hr : row.length = w) (hx2 : x < 2) (hxw : x < w) :
    chromaFilterEdgeLeft bd w row x =
      some (chromaFilterSpec bd w (fun i => row.getD i 0) x) := by
  have hz : x - 2 = 0 := by omega
  unfold chromaFilterEdgeLeft chromaFilterSpec
  simp only [Option.bind_eq_bind, Option.pure_def,
    getPx_lt row 0 (by omega), getPx_lt row (x - 1) (by omega),
    getPx_lt row x (by omega), getPx_lt row (min (x + 1) (w - 1)) (by omega),
    getPx_lt row (min (x + 2) (w - 1)) (by omega),
    getPx_lt row (min (x + 3) (w - 1)) (by omega), Option.some_bind]
  rw [hz]

lemma chromaFilterMid_eq (bd w : ℕ) (row : List ℤ) (x : ℕ)
    (hr : row.length = w) (hx2 : 2 ≤ x) (hxw : x + 3 < w) :
    chromaFilterMid bd row x =
      some (chromaFilterSpec bd w (fun i => row.getD i 0) x) := by
  have hc2 : csub x 2 = some (x - 2) := by unfold csub; rw [if_neg (by omega)]
  have hc1 : csub x 1 = some (x - 1) := by unfold csub; rw [if_neg (by omega)]
  have hm1 : min (x + 1) (w - 1) = x + 1 := by omega
  have hm2 : min (x + 2) (w - 1) = x + 2 := by omega
  have hm3 : min (x + 3) (w - 1) = x + 3 := by omega
  unfold chromaFilterMid chromaFilterSpec
  simp only [Option.bind_eq_bind, Option.pure_def, hc2, hc1, Option.some_bind,
    getPx_lt row (x - 2) (by omega), getPx_lt row (x - 1) (by omega),
    getPx_lt row x (by omega), getPx_lt row (x + 1) (by omega),
    getPx_lt row (x + 2) (by omega), getPx_lt row (x + 3) (by omega)]
  rw [hm1, hm2, hm3]

lemma chromaFilterEdgeRight_eq (bd w : ℕ) (row : List ℤ) (x : ℕ)
    (hr : row.length = w) (hx2 : 2 ≤ x) (hxw : x < w) (hx3 : w - 3 ≤ x) :
    chromaFilterEdgeRight bd w row x =
      some (chromaFilterSpec bd w (fun i => row.getD i 0) x) := by
  have hc2 : csub x 2 = some (x - 2) := by unfold csub; rw [if_neg (by omega)]
  have hc1 : csub x 1 = some (x - 1) := by unfold csub; rw [if_neg (by omega)]
  have hm3 : min (x + 3) (w - 1) = w - 1 := by omega
  unfold chromaFilterEdgeRight chromaFilterSpec
  simp only [Option.bind_eq_bind, Option.pure_def, hc2, hc1, Option.some_bind,
    getPx_lt row (x - 2) (by omega), getPx_lt row (x - 1) (by omega),
    getPx_lt row x (by omega), getPx_lt row (min (x + 1) (w - 1)) (by omega),
    getPx_lt row (min (x + 2) (w - 1)) (by omega), getPx_lt row (w - 1) (by omega)]
  rw [hm3]

/-- Successful conversion of one row: the width is at least 5 and every
output sample is the spec-form filter value. -/
lemma convertRowVertical_spec (bd w : ℕ) (row out : List ℤ)
    (hr : row.length = w)
    (hsucc : convertRowVertical bd w row = some out) :
    5 ≤ w ∧ out.length = w ∧
      ∀ x < w, out.get? x = some (chromaFilterSpec bd w (fun i => row.getD i 0) x) := by
  unfold convertRowVertical at hsucc
  cases hbp : csub w 3 with
  | none => rw [hbp] at hsucc; simp at hsucc
  | some bp2 =>
    rw [hbp] at hsucc
    simp only [Option.bind_eq_bind, Option.some_bind] at hsucc
    have hw3 : 3 ≤ w ∧ bp2 = w - 3 := by
      unfold csub at hbp
      by_cases hlt : w < 3
      · rw [if_pos hlt] at hbp; exact absurd hbp (by simp)
      · rw [if_neg hlt] at hbp
        have := Option.some.inj hbp
        omega
    have hall := (sequenceOpt_isSome_iff _).mp (by rw [hsucc]; rfl)
    have hbp2lt : bp2 < w := by omega
    have hbp2el : (if bp2 ≤ bp2 then chromaFilterEdgeRight bd w row bp2
        else if bp2 < min w 2 then chromaFilterEdgeLeft bd w row bp2
        else chromaFilterMid bd row bp2).isSome := by
      apply hall
      refine List.mem_map.mpr ⟨bp2, List.mem_range.mpr hbp2lt, rfl⟩
    rw [if_pos le_rfl] at hbp2el
    have h5 : 5 ≤ w := by
      by_contra hcon
      push_neg at hcon
      have hbp2lt2 : bp2 < 2 := by omega
      unfold chromaFilterEdgeRight csub at hbp2el
      rw [if_pos hbp2lt2] at hbp2el
      simp at hbp2el
    refine ⟨h5, ?_, ?_⟩
    · have := sequenceOpt_length hsucc
      simpa using this
    · intro x hx
      have hget : ((List.range w).map fun x =>
          if bp2 ≤ x then chromaFilterEdgeRight bd w row x
          else if x < min w 2 then chromaFilterEdgeLeft bd w row x
          else chromaFilterMid bd row x).get? x = some
            (if bp2 ≤ x then chromaFilterEdgeRight bd w row x
            else if x < min w 2 then chromaFilterEdgeLeft bd w row x
            else chromaFilterMid bd row x) := by
        rw [List.get?_map, List.get?_range hx]
        rfl
      obtain ⟨a, ha, hout⟩ := sequenceOpt_get hsucc x _ hget
      rw [hout]
      by_cases hR : bp2 ≤ x
      · rw [if_pos hR] at ha
        rw [chromaFilterEdgeRight_eq bd w row x hr (by omega) hx (by omega)] at ha
        rw [← Option.some.inj ha]
      · rw [if_neg hR] at ha
        by_cases hL : x < min w 2
        · rw [if_pos hL] at ha
          rw [chromaFilterEdgeLeft_eq bd w row x hr (by omega) hx] at ha
          rw [← Option.some.inj ha]
        · rw [if_neg hL] at ha
          rw [chromaFilterMid_eq bd w row x hr (by omega) (by omega)] at ha
          rw [← Option.some.inj ha]

/-- **C7.** `convert_chroma_data` resamples if and only if the chroma
sample position is `Vertical`: every other position copies the source
through unchanged, and in the `Vertical` case every produced output sample
is the 6-tap filter `[4, −17, 114, 35, −9, 1]/128` of its source row with
saturating left-tap indices (the leftmost tap reading index 0 for `x < 2`)
and right taps clamped to `width − 1` (the last tap reading `width − 1`
for `x > width − 4`), rounded and clamped to `[0, 2^bd − 1]`. -/
theorem c7_chroma_realignment (pos : ChromaSamplePosition) (bd w h : ℕ)
    (src : List (List ℤ)) (hw : ∀ row ∈ src, row.length = w) :
    (pos ≠ .Vertical → convert_chroma_data pos bd w h src = some src) ∧
    (∀ out, convert_chroma_data .Vertical bd w h src = some out →
      out.length = h ∧
      ∀ y < h, ∃ row orow, src.get? y = some row ∧ out.get? y = some orow ∧
        orow.length = w ∧
        ∀ x < w, orow.get? x = some (chromaFilterSpec bd w (fun i => row.getD i 0) x)) := by
  constructor
  · intro hpos
    unfold convert_chroma_data
    rw [if_pos hpos]
  · intro out hsucc
    unfold convert_chroma_data at hsucc
    rw [if_neg (by simp)] at hsucc
    constructor
    · have := sequenceOpt_length hsucc
      simpa using this
    · intro y hy
      have hget : ((List.range h).map fun y =>
          (src.get? y).bind (convertRowVertical bd w)).get? y =
            some ((src.get? y).bind (convertRowVertical bd w)) := by
        rw [List.get?_map, List.get?_range hy]
        rfl
      obtain ⟨orow, ha, hout⟩ := sequenceOpt_get hsucc y _ hget
      cases hrow : src.get? y with
      | none => rw [hrow] at ha; simp at ha
      | some row =>
        rw [hrow] at ha
        simp only [Option.some_bind] at ha
        have hrw : row.length = w := hw row (List.get?_mem hrow)
        obtain ⟨_, hlen, hvals⟩ := convertRowVertical_spec bd w row orow hrw ha
        exact ⟨row, orow, rfl, hout, hlen, hvals⟩

/-- Witness for C7: a concrete Vertical conversion and a concrete
pass-through. -/
theorem c7_witness :
    (ChromaSamplePosition.Colocated ≠ ChromaSamplePosition.Vertical →
      convert_chroma_data .Colocated 8 5 1 [[1, 2, 3, 4, 5]] = some [[1, 2, 3, 4, 5]]) ∧
    (∀ out, convert_chroma_data .Vertical 8 5 1 [[1, 2, 3, 4, 5]] = some out →
      out.length = 1 ∧
      ∀ y < 1, ∃ row orow, [[(1 : ℤ), 2, 3, 4, 5]].get? y = some row ∧
        out.get? y = some orow ∧ orow.length = 5 ∧
        ∀ x < 5, orow.get? x =
          some (chromaFilterSpec 8 5 (fun i => row.getD i 0) x)) :=
  c7_chroma_realignment .Colocated 8 5 1 [[1, 2, 3, 4, 5]] (by
    intro row hrow
    simp only [List.mem_singleton] at hrow
    subst hrow
    rfl)

/-- Totality of one row conversion for `w ≥ 5`. -/
lemma convertRowVertical_isSome (bd w : ℕ) (row : List ℤ)
    (hr : row.length = w) (h5 : 5 ≤ w) :
    (convertRowVertical bd w row).isSome := by
  unfold convertRowVertical
  have hbp : csub w 3 = some (w - 3) := by unfold csub; rw [if_neg (by omega)]
  rw [hbp]
  simp only [Option.bind_eq_bind, Option.some_bind]
  rw [sequenceOpt_isSome_iff]
  intro o ho
  obtain ⟨x, hxr, rfl⟩ := List.mem_map.mp ho
  have hx : x < w := List.mem_range.mp hxr
  by_cases hR : w - 3 ≤ x
  · rw [if_pos hR, chromaFilterEdgeRight_eq bd w row x hr (by omega) hx (by omega)]
    rfl
  · rw [if_neg hR]
    by_cases hL : x < min w 2
    · rw [if_pos hL, chromaFilterEdgeLeft_eq bd w row x hr (by omega) hx]
      rfl
    · rw [if_neg hL, chromaFilterMid_eq bd w row x hr (by omega) (by omega)]
      rfl

/-- **C10 (amended).** With well-formed input (`h` rows of width `w`),
`convert_chroma_data` with `Vertical` position is total exactly when
`h = 0` or `w ≥ 5`; in particular it panics for every `w < 5` with
`h ≥ 1` — widths 1 and 2 at the `width - 3` underflow, widths 3 and 4 at
the `x - 2` underflow of the right-edge loop (an out-of-bounds row access
after wrapping, in release mode).  All other chroma positions are total. -/
theorem c10_convert_chroma_data_totality (bd w h : ℕ) (src : List (List ℤ))
    (hw : ∀ row ∈ src, row.length = w) (hh : h ≤ src.length) :
    ((convert_chroma_data .Vertical bd w h src).isSome ↔ (h = 0 ∨ 5 ≤ w)) ∧
    (∀ pos, pos ≠ ChromaSamplePosition.Vertical →
      (convert_chroma_data pos bd w h src).isSome) := by
  constructor
  · unfold convert_chroma_data
    rw [if_neg (by simp)]
    constructor
    · intro hsome
      by_cases hzero : h = 0
      · exact Or.inl hzero
      · refine Or.inr ?_
        obtain ⟨out, hout⟩ := Option.isSome_iff_exists.mp hsome
        have hget : ((List.range h).map fun y =>
            (src.get? y).bind (convertRowVertical bd w)).get? 0 =
              some ((src.get? 0).bind (convertRowVertical bd w)) := by
          rw [List.get?_map, List.get?_range (by omega)]
          rfl
        obtain ⟨orow, ha, _⟩ := sequenceOpt_get hout 0 _ hget
        cases hrow : src.get? 0 with
        | none => rw [hrow] at ha; simp at ha
        | some row =>
          rw [hrow] at ha
          simp only [Option.some_bind] at ha
          have hrw : row.length = w := hw row (List.get?_mem hrow)
          exact (convertRowVertical_spec bd w row orow hrw ha).1
    · intro hcase
      rcases hcase with rfl | h5
      · simp [sequenceOpt]
      · rw [sequenceOpt_isSome_iff]
        intro o ho
        obtain ⟨y, hyr, rfl⟩ := List.mem_map.mp ho
        have hy : y < h := List.mem_range.mp hyr
        cases hrow : src.get? y with
        | none =>
          exact absurd (List.get?_eq_none.mp hrow) (by omega)
        | some row =>
          simp only [Option.some_bind]
          exact convertRowVertical_isSome bd w row (hw row (List.get?_mem hrow)) h5
  · intro pos hpos
    unfold convert_chroma_data
    rw [if_pos hpos]
    rfl

/-- Witness for C10 (amended) at a concrete well-formed input. -/
theorem c10_witness :
    ((convert_chroma_data .Vertical 8 5 1 [[9, 8, 7, 6, 5]]).isSome ↔ (1 = 0 ∨ 5 ≤ 5)) ∧
    (∀ pos, pos ≠ ChromaSamplePosition.Vertical →
      (convert_chroma_data pos 8 5 1 [[9, 8, 7, 6, 5]]).isSome) :=
  c10_convert_chroma_data_totality 8 5 1 [[9, 8, 7, 6, 5]] (by
    intro row hrow
    simp only [List.mem_singleton] at hrow
    subst hrow
    rfl) (by norm_num)

/-- **C10 (counterexample).** At width 3 (height 1, `Vertical`) the claim
says every row-buffer access is in bounds, but the right-edge loop starts
at `breakpoint2 = 0` and its `x - 2` underflows: the conversion panics
(`none`). -/
theorem c10_counterexample :
    convert_chroma_data .Vertical 8 3 1 [[0, 0, 0]] = none := by
  decide

/-- **C3.** For comparable frames (restricted to the bit depths 8/10/12
for which the ΔE row dispatch exists — see C8 — and to samplings with
chroma planes), the per-frame CIEDE2000 result is
`min(100, 45 − 20·log10((Σ ΔE)/N))` where `N` is the luma pixel count and
`ΔE` is the CIEDE2000 difference computed with
`(kL, kC, kH) = (0.65, 1.0, 4.0)` over the nearest-neighbour-upsampled
chroma (`⌊i/2^ydec⌋`, `⌊j/2^xdec⌋`); hence the per-frame result is never
greater than 100. -/
theorem c3_ciede2000_frame_formula (rgbToLab : ℝ × ℝ × ℝ → Lab)
    (f1 f2 : FrameInfo) (hcc : f1.can_compare f2 = .ok ())
    (_hbd : f1.bit_depth = 8 ∨ f1.bit_depth = 10 ∨ f1.bit_depth = 12)
    (_hcs : f1.chroma_sampling ≠ .Cs400) :
    ciede2000ProcessFrame rgbToLab f1 f2 = .ok (min 100 (45 - 20 * Real.logb 10
      (ciedeSumDeltaE rgbToLab f1 f2
        / (((f1.planes 0).width * (f1.planes 0).height : ℕ) : ℝ)))) ∧
    ciedeSumDeltaE rgbToLab f1 f2 =
      (∑ i ∈ Finset.range (f1.planes 0).height,
        ∑ j ∈ Finset.range (f1.planes 0).width,
        DE2000.new
          (rgbToLab (yuv_to_rgb f1.bit_depth
            (planePix (f1.planes 0) (i * (f1.planes 0).width + j),
             planePix (f1.planes 1)
               ((i / 2 ^ ((f1.chroma_sampling.get_decimation).getD (1, 1)).2)
                 * (f1.planes 1).width
                 + j / 2 ^ ((f1.chroma_sampling.get_decimation).getD (1, 1)).1),
             planePix (f1.planes 2)
               ((i / 2 ^ ((f1.chroma_sampling.get_decimation).getD (1, 1)).2)
                 * (f1.planes 1).width
                 + j / 2 ^ ((f1.chroma_sampling.get_decimation).getD (1, 1)).1))))
          (rgbToLab (yuv_to_rgb f1.bit_depth
            (planePix (f2.planes 0) (i * (f1.planes 0).width + j),
             planePix (f2.planes 1)
               ((i / 2 ^ ((f1.chroma_sampling.get_decimation).getD (1, 1)).2)
                 * (f1.planes 1).width
                 + j / 2 ^ ((f1.chroma_sampling.get_decimation).getD (1, 1)).1),
             planePix (f2.planes 2)
               ((i / 2 ^ ((f1.chroma_sampling.get_decimation).getD (1, 1)).2)
                 * (f1.planes 1).width
                 + j / 2 ^ ((f1.chroma_sampling.get_decimation).getD (1, 1)).1))))
          ⟨0.65, 1.0, 4.0⟩) ∧
    min (100 : ℝ) (45 - 20 * Real.logb 10
      (ciedeSumDeltaE rgbToLab f1 f2
        / (((f1.planes 0).width * (f1.planes 0).height : ℕ) : ℝ))) ≤ 100 := by
  refine ⟨?_, ?_, min_le_left _ _⟩
  · unfold ciede2000ProcessFrame
    rw [hcc]
    show Except.ok _ = Except.ok _
    rw [min_comm]
  · unfold ciedeSumDeltaE delta_e_scalar K_SUB
    simp only [Nat.shiftRight_eq_div_pow]

/-- Witness for C3 at concrete frames. -/
theorem c3_witness :
    ciede2000ProcessFrame rgb_to_lab_ideal c3Frame1 c3Frame2 =
      .ok (min 100 (45 - 20 * Real.logb 10
        (ciedeSumDeltaE rgb_to_lab_ideal c3Frame1 c3Frame2
          / (((c3Frame1.planes 0).width * (c3Frame1.planes 0).height : ℕ) : ℝ)))) ∧
    min (100 : ℝ) (45 - 20 * Real.logb 10
      (ciedeSumDeltaE rgb_to_lab_ideal c3Frame1 c3Frame2
        / (((c3Frame1.planes 0).width * (c3Frame1.planes 0).height : ℕ) : ℝ))) ≤ 100 := by
  obtain ⟨h1, _, h3⟩ := c3_ciede2000_frame_formula rgb_to_lab_ideal c3Frame1 c3Frame2 rfl
    (Or.inl rfl) (by decide)
  exact ⟨h1, h3⟩

/-- The per-frame PSNR-HVS result written with the concrete tables each
plane receives: CSF_Y for Y, CSF_CB420 for U and CSF_CR420 for V —
independently of the chroma sampling. -/
lemma psnrHvsProcessFrame_eq (f1 f2 : FrameInfo) (hcc : f1.can_compare f2 = .ok ()) :
    psnrHvsProcessFrame f1 f2 = .ok
      { y := planePsnrHvsWithCsf CSF_Y (f1.planes 0) (f2.planes 0) f1.bit_depth
        u := planePsnrHvsWithCsf CSF_CB420 (f1.planes 1) (f2.planes 1) f1.bit_depth
        v := planePsnrHvsWithCsf CSF_CR420 (f1.planes 2) (f2.planes 2) f1.bit_depth
        avg := 0 } := by
  have h0 : psnrHvsCsfTable 0 = CSF_Y := by unfold psnrHvsCsfTable; norm_num
  have h1 : psnrHvsCsfTable 1 = CSF_CB420 := by unfold psnrHvsCsfTable; norm_num
  have h2 : psnrHvsCsfTable 2 = CSF_CR420 := by unfold psnrHvsCsfTable; norm_num
  unfold psnrHvsProcessFrame calculate_plane_psnr_hvs
  rw [hcc]
  show Except.ok _ = Except.ok _
  rw [h0, h1, h2]

/-- **C5 (amended).** For every pair of comparable frames — whatever the
chroma sampling, including 4:2:2 and 4:4:4 — the PSNR-HVS computation uses
CSF_CB420 for the U plane and CSF_CR420 for the V plane (the CSF is
selected by plane index alone); CSF_Y is used only for the luma plane, and
the chroma tables genuinely differ from it. -/
theorem c5_csf_selected_by_plane_index (f1 f2 : FrameInfo)
    (hcc : f1.can_compare f2 = .ok ()) :
    psnrHvsProcessFrame f1 f2 = .ok
      { y := planePsnrHvsWithCsf CSF_Y (f1.planes 0) (f2.planes 0) f1.bit_depth
        u := planePsnrHvsWithCsf CSF_CB420 (f1.planes 1) (f2.planes 1) f1.bit_depth
        v := planePsnrHvsWithCsf CSF_CR420 (f1.planes 2) (f2.planes 2) f1.bit_depth
        avg := 0 } ∧
    CSF_CB420 0 0 ≠ CSF_Y 0 0 ∧ CSF_CR420 0 0 ≠ CSF_Y 0 0 := by
  refine ⟨psnrHvsProcessFrame_eq f1 f2 hcc, ?_, ?_⟩
  · simp only [CSF_CB420, CSF_Y, Matrix.cons_val_zero]
    norm_num
  · simp only [CSF_CR420, CSF_Y, Matrix.cons_val_zero]
    norm_num

/-! Evaluation of the per-plane score on constant 8×8 blocks, used to
exhibit that the chroma result genuinely depends on which table is
selected. -/

lemma blockGMean_const (c : ℤ) : blockGMean (fun _ _ => c) = (c : ℝ) := by
  unfold blockGMean
  simp [Finset.sum_const, Finset.card_univ]
  ring

lemma blockGVar_const (c : ℤ) : blockGVar (fun _ _ => c) = 0 := by
  unfold blockGVar
  simp [blockGMean_const]

lemma blockGVarRatio_const (c : ℤ) : blockGVarRatio (fun _ _ => c) = 0 := by
  unfold blockGVarRatio
  rw [blockGVar_const]
  simp

lemma blockMask_const (csf : Csf) (c : ℤ) : blockMask csf (fun _ _ => c) = 0 := by
  unfold blockMask
  rw [blockGVarRatio_const, mul_zero, Real.sqrt_zero, zero_div]

lemma fdct_diff_01 : ∀ i j : Fin 8,
    (od_bin_fdct8x8 (fun _ _ => (0 : ℤ)) i j
      - od_bin_fdct8x8 (fun _ _ => (1 : ℤ)) i j).natAbs =
      if i = 0 ∧ j = 0 then 8 else 0 := by decide

lemma blockErrSum_01 (csf : Csf) :
    blockErrSum csf (fun _ _ => (0 : ℤ)) (fun _ _ => (1 : ℤ)) =
      (8 * csf 0 0) ^ 2 := by
  unfold blockErrSum
  simp only [blockMask_const, lt_self_iff_false, if_false, zero_div]
  rw [Finset.sum_eq_single (0 : Fin 8)]
  · rw [Finset.sum_eq_single (0 : Fin 8)]
    · rw [if_pos ⟨rfl, rfl⟩, fdct_diff_01 0 0, if_pos ⟨rfl, rfl⟩]
      norm_num
    · intro j _ hj
      have hne : ¬((0 : Fin 8) = 0 ∧ j = 0) := by simp [hj]
      rw [if_neg hne, fdct_diff_01 0 j, if_neg hne]
      norm_num
    · intro habs
      exact absurd (Finset.mem_univ _) habs
  · intro i _ hi
    apply Finset.sum_eq_zero
    intro j _
    have hne : ¬(i = 0 ∧ j = 0) := by simp [hi]
    rw [if_neg hne, fdct_diff_01 i j, if_neg hne]
    norm_num
  · intro habs
    exact absurd (Finset.mem_univ _) habs

lemma planePsnrHvs_zero_one (csf : Csf) :
    planePsnrHvsWithCsf csf z64 o64 8 = (8 * csf 0 0) ^ 2 / 64 / 65025 := by
  have hb0 : blockOf z64 0 0 = fun _ _ => (0 : ℤ) := by
    have h : ∀ i j : Fin 8, blockOf z64 0 0 i j = 0 := by decide
    funext i j
    exact h i j
  have hb1 : blockOf o64 0 0 = fun _ _ => (1 : ℤ) := by
    have h : ∀ i j : Fin 8, blockOf o64 0 0 i j = 1 := by decide
    funext i j
    exact h i j
  have hY : (Finset.range (8 - 7)).filter (fun y => y % 7 = 0) = {0} := by decide
  unfold planePsnrHvsWithCsf
  show (∑ y ∈ (Finset.range (z64.height - 7)).filter (fun y => y % 7 = 0),
      ∑ x ∈ (Finset.range (z64.width - 7)).filter (fun x => x % 7 = 0),
      blockErrSum csf (blockOf z64 y x) (blockOf o64 y x))
    / ((((Finset.range (z64.height - 7)).filter (fun y => y % 7 = 0)).card
      * (((Finset.range (z64.width - 7)).filter (fun x => x % 7 = 0)).card) * 64 : ℕ) : ℝ)
    / (((2 ^ 8 - 1 : ℕ) ^ 2 : ℕ) : ℝ) = _
  have hzh : z64.height = 8 := rfl
  have hzw : z64.width = 8 := rfl
  rw [hzh, hzw, hY, Finset.sum_singleton, Finset.sum_singleton, hb0, hb1,
    blockErrSum_01]
  norm_num

/-- **C5 (counterexample).** For a concrete 4:4:4 frame pair, the U-plane
PSNR-HVS result differs from what the luma table CSF_Y would produce: the
computation uses CSF_CB420 even for 4:4:4 input, refuting the claim that
the Y CSF is reused for 4:2:2/4:4:4. -/
theorem c5_counterexample :
    (psnrHvsProcessFrame c5Frame1 c5Frame2).map PlanarMetrics.u ≠
      Except.ok (planePsnrHvsWithCsf CSF_Y
        (c5Frame1.planes 1) (c5Frame2.planes 1) c5Frame1.bit_depth) := by
  rw [psnrHvsProcessFrame_eq c5Frame1 c5Frame2 rfl]
  simp only [Except.map]
  intro h
  have h2 := Except.ok.inj h
  have hp1 : c5Frame1.planes 1 = z64 := by decide
  have hp2 : c5Frame2.planes 1 = o64 := by decide
  have hbd : c5Frame1.bit_depth = 8 := rfl
  rw [hp1, hp2, hbd, planePsnrHvs_zero_one CSF_CB420, planePsnrHvs_zero_one CSF_Y] at h2
  have hcb : CSF_CB420 0 0 = 1.91113096927 := by
    simp [CSF_CB420, Matrix.cons_val_zero]
  have hy : CSF_Y 0 0 = 1.6193873005 := by
    simp [CSF_Y, Matrix.cons_val_zero]
  rw [hcb, hy] at h2
  norm_num at h2

/-- Witness for C5 (amended) at concrete frames. -/
theorem c5_witness :
    psnrHvsProcessFrame c5Frame1 c5Frame2 = .ok
      { y := planePsnrHvsWithCsf CSF_Y (c5Frame1.planes 0) (c5Frame2.planes 0)
          c5Frame1.bit_depth
        u := planePsnrHvsWithCsf CSF_CB420 (c5Frame1.planes 1) (c5Frame2.planes 1)
          c5Frame1.bit_depth
        v := planePsnrHvsWithCsf CSF_CR420 (c5Frame1.planes 2) (c5Frame2.planes 2)
          c5Frame1.bit_depth
        avg := 0 } ∧
    CSF_CB420 0 0 ≠ CSF_Y 0 0 ∧ CSF_CR420 0 0 ≠ CSF_Y 0 0 :=
  c5_csf_selected_by_plane_index c5Frame1 c5Frame2 rfl

end AvMetrics

